import Mathlib

/-!
# Verification of the himotoki-split tokenizer against its specification

Shallow embedding of the `himotoki_split` Python package: the character
classifier, the lexicon interface, the counter/number module, the scoring
model, the lattice builder, the path selector, the rewriter passes and the
facade.  Python strings are embedded as `List Char` (`Str`), so positions are
code-point offsets exactly as in the source; Python floats are embedded as
`ℚ` (every constant in the scoring model is a decimal literal, so the formula
structure is preserved exactly; IEEE rounding is not modelled).  The lexicon
(an on-disk binary artifact) is a parameter: a `Lexicon` provides `lookup`
and the prefix test, as in `dictionary.py`.
-/

namespace Himotoki

set_option maxRecDepth 10000
set_option linter.unusedVariables false

/-- Python strings are sequences of code points; we embed them as `List Char`. -/
abbrev Str := List Char

/-- `word[:-n]` of Python: drop the last `n` code points. -/
def dropLastN (n : Nat) (s : Str) : Str := s.take (s.length - n)

/-- `text[start:end]` of Python (code-point slice). -/
def sliceCP (text : Str) (s e : Nat) : Str := (text.drop s).take (e - s)

/-!
## Character classifier

The source imports `himotoki_split.characters` (`get_char_class`, `mora_length`,
`is_kana`, `is_katakana`, `is_hiragana`, `has_kanji`, `as_hiragana`), but that
file is not under `src/`; only its callers are.  The definitions below are
modelled from the spec, §4.1.
-/

/-- Modelled from the spec: §4.1 small-kana modifiers `ゃ ゅ ょ ぁ ぃ ぅ ぇ ぉ ゎ`.
The class names `+a`, `+i`, ... are those the callers in `tokenizer.py` test
for (`MODIFIER_CLASSES`).  (`characters.py` is missing from `src/`.) -/
def smallKanaClass (c : Char) : Option String :=
  if c = 'ぁ' then some "+a"
  else if c = 'ぃ' then some "+i"
  else if c = 'ぅ' then some "+u"
  else if c = 'ぇ' then some "+e"
  else if c = 'ぉ' then some "+o"
  else if c = 'ゃ' then some "+ya"
  else if c = 'ゅ' then some "+yu"
  else if c = 'ょ' then some "+yo"
  else if c = 'ゎ' then some "+wa"
  else none

/-- Punctuation separators; `tokenizer.py` `PUNCTUATION_SEPARATORS`. -/
def PUNCTUATION_SEPARATORS : List Char := ['、', '。', '！', '？', '，', '．', '…', '・']

/-- Modelled from the spec: §4.1 character classifier (one code point to a named
class); `characters.py` is missing from `src/`.  Classes: small-kana modifiers,
sokuon `っ ッ`, long-vowel `ー`, punctuation separators, digits (half/full
width), hiragana, katakana, kanji, latin, other. -/
def get_char_class (c : Char) : String :=
  match smallKanaClass c with
  | some cls => cls
  | none =>
    if c = 'っ' ∨ c = 'ッ' then "sokuon"
    else if c = 'ー' then "long_vowel"
    else if PUNCTUATION_SEPARATORS.contains c then "punct"
    else if ('0' ≤ c ∧ c ≤ '9') ∨ ('０' ≤ c ∧ c ≤ '９') then "digit"
    else if 0x3041 ≤ c.toNat ∧ c.toNat ≤ 0x309F then "hiragana"
    else if 0x30A1 ≤ c.toNat ∧ c.toNat ≤ 0x30FF then "katakana"
    else if 0x4E00 ≤ c.toNat ∧ c.toNat ≤ 0x9FFF then "kanji"
    else if ('a' ≤ c ∧ c ≤ 'z') ∨ ('A' ≤ c ∧ c ≤ 'Z') then "latin"
    else "other"

/-- `tokenizer.py` `MODIFIER_CLASSES`: classes that cannot start a word. -/
def MODIFIER_CLASSES : List String :=
  ["+a", "+i", "+u", "+e", "+o", "+ya", "+yu", "+yo", "+wa", "long_vowel"]

/-- Modelled from the spec: §4.1 `has_kanji` operates on strings — true iff some
code point is a kanji (`characters.py` is missing from `src/`). -/
def has_kanji (s : Str) : Bool := s.any fun c => 0x4E00 ≤ c.toNat ∧ c.toNat ≤ 0x9FFF

/-- Modelled from the spec: §4.1 `is_hiragana` — nonempty and all hiragana. -/
def is_hiragana (s : Str) : Bool :=
  !s.isEmpty && s.all fun c => 0x3041 ≤ c.toNat ∧ c.toNat ≤ 0x309F

/-- Modelled from the spec: §4.1 `is_katakana` — nonempty and all katakana
(the long-vowel sign `ー` sits in the katakana block). -/
def is_katakana (s : Str) : Bool :=
  !s.isEmpty && s.all fun c => 0x30A1 ≤ c.toNat ∧ c.toNat ≤ 0x30FF

/-- Modelled from the spec: §4.1 `is_kana` — nonempty and all kana. -/
def is_kana (s : Str) : Bool :=
  !s.isEmpty && s.all fun c =>
    (0x3041 ≤ c.toNat ∧ c.toNat ≤ 0x309F) ∨ (0x30A1 ≤ c.toNat ∧ c.toNat ≤ 0x30FF)

/-- Modelled from the spec: hiragana normalisation of kana (katakana letters
map down by 0x60 to their hiragana partners). -/
def as_hiragana (s : Str) : Str :=
  s.map fun c =>
    if 0x30A1 ≤ c.toNat ∧ c.toNat ≤ 0x30F6 then Char.ofNat (c.toNat - 0x60) else c

/-- Modelled from the spec: §4.1 `mora_length` — each character counts one mora
except small kana and the long-vowel sign, which attach to the previous mora. -/
def mora_length (s : Str) : Nat :=
  s.countP fun c => !(MODIFIER_CLASSES.contains (get_char_class c))

/-!
## Lexicon interface (`dictionary.py`)

The binary dictionary is an external artifact; we abstract it as a `Lexicon`
(exact lookup returning all records, and the prefix test `has_prefix`).
`contains` of `dictionary.py` is key membership, which for a record trie is
equivalent to `lookup` being non-empty.
-/

/-- `dictionary.py` `WordEntry`: one 12-byte record of the binary dictionary. -/
structure WordEntry where
  surface : Str
  seq : Nat
  cost : Int
  pos_id : Nat
  conj_type : Nat
  base_seq : Nat
  deriving Repr, DecidableEq

/-- `WordEntry.base_form_id`: `base_seq` when non-zero, else `seq`. -/
def WordEntry.base_form_id (e : WordEntry) : Nat :=
  if e.base_seq ≠ 0 then e.base_seq else e.seq

/-- The lexicon store: exact lookup and prefix existence (`dictionary.py`
`lookup` / `has_prefix`).  The on-disk artifact is not part of `src/`, so
the store is a parameter of the embedding. -/
structure Lexicon where
  lookup : Str → List WordEntry
  hasPref : Str → Bool

/-- `dictionary.py` `contains`: key membership, i.e. `lookup` non-empty. -/
def Lexicon.containsKey (lex : Lexicon) (s : Str) : Bool := !(lex.lookup s).isEmpty

/-- `suffix_splitting.py` `word_exists_in_dict`. -/
def word_exists_in_dict (lex : Lexicon) (w : Str) : Bool := !(lex.lookup w).isEmpty

/-- The empty lexicon (no keys at all). -/
def emptyLex : Lexicon := { lookup := fun _ => [], hasPref := fun _ => false }

/-- A concrete finite lexicon built from (key, records) pairs:
exact lookup plus prefix test over the key set. -/
def lexOf (entries : List (Str × List WordEntry)) : Lexicon :=
  { lookup := fun s => ((entries.find? fun kv => kv.1 = s).map fun kv => kv.2).getD []
    hasPref := fun p => entries.any fun kv => p.isPrefixOf kv.1 }

/-- dictionary.py POS_ID_MAP (name, id) pairs in source order -/
def POS_ID_MAP : List (String × Nat) :=
  [("n", 1),
   ("n-adv", 2),
   ("n-pref", 3),
   ("n-suf", 4),
   ("n-t", 5),
   ("v1", 10),
   ("v1-s", 11),
   ("v5aru", 12),
   ("v5b", 13),
   ("v5g", 14),
   ("v5k", 15),
   ("v5k-s", 16),
   ("v5m", 17),
   ("v5n", 18),
   ("v5r", 19),
   ("v5r-i", 20),
   ("v5s", 21),
   ("v5t", 22),
   ("v5u", 23),
   ("v5u-s", 24),
   ("v5uru", 25),
   ("vk", 26),
   ("vs", 27),
   ("vs-i", 28),
   ("vs-s", 29),
   ("vz", 30),
   ("adj-i", 40),
   ("adj-ix", 41),
   ("adj-na", 42),
   ("adj-no", 43),
   ("adj-pn", 44),
   ("adj-t", 45),
   ("adj-f", 46),
   ("adv", 50),
   ("adv-to", 51),
   ("aux", 60),
   ("aux-v", 61),
   ("aux-adj", 62),
   ("conj", 70),
   ("cop", 71),
   ("ctr", 72),
   ("exp", 73),
   ("int", 74),
   ("pn", 80),
   ("pref", 81),
   ("prt", 82),
   ("suf", 83),
   ("unc", 84)]

/-- `dictionary.py` `get_pos_name`: reverse of `POS_ID_MAP`, default `unk`. -/
def get_pos_name (pos_id : Nat) : String :=
  (((POS_ID_MAP.find? fun kv => kv.2 = pos_id).map fun kv => kv.1).getD "unk")

/-!
## Counter / number module (`counters.py`)
-/

/-- counters.py KANJI_NUMBERS -/
def KANJI_NUMBERS : List (Char × Nat) :=
  [('零', 0), ('〇', 0), ('一', 1), ('壱', 1), ('二', 2), ('弐', 2), ('三', 3), ('参', 3),
   ('四', 4), ('五', 5), ('六', 6), ('七', 7), ('八', 8), ('九', 9),
   ('十', 10), ('百', 100), ('千', 1000), ('万', 10000), ('億', 100000000)]

/-- counters.py DIGIT_VALUES -/
def DIGIT_VALUES : List (Char × Nat) :=
  [('0', 0), ('０', 0), ('1', 1), ('１', 1), ('2', 2), ('２', 2), ('3', 3), ('３', 3),
   ('4', 4), ('４', 4), ('5', 5), ('５', 5), ('6', 6), ('６', 6), ('7', 7), ('７', 7),
   ('8', 8), ('８', 8), ('9', 9), ('９', 9)]

/-- counters.py DIGIT_TO_KANA -/
def DIGIT_TO_KANA : List (Nat × Str) :=
  [(0, "ゼロ".data), (1, "いち".data), (2, "に".data), (3, "さん".data), (4, "よん".data),
   (5, "ご".data), (6, "ろく".data), (7, "なな".data), (8, "はち".data), (9, "きゅう".data)]

/-- `DIGIT_TO_KANA.get(d, '')` of `counters.py`. -/
def digitKana (d : Nat) : Str :=
  (((DIGIT_TO_KANA.find? fun kv => kv.1 = d).map fun kv => kv.2).getD [])

/-- Value of a digit character in `DIGIT_VALUES`, if any. -/
def digitValue? (c : Char) : Option Nat :=
  ((DIGIT_VALUES.find? fun kv => kv.1 = c).map fun kv => kv.2)

/-- Value of a kanji numeral in `KANJI_NUMBERS`, if any. -/
def kanjiValue? (c : Char) : Option Nat :=
  ((KANJI_NUMBERS.find? fun kv => kv.1 = c).map fun kv => kv.2)

/-- Fold of `counters.py` `parse_kanji_number`: state is `(result, current)`;
multiplier characters (value ≥ 10) fold the pending digit in, digit characters
accumulate.  `none` on the first character outside `KANJI_NUMBERS`. -/
def parseKanjiGo : List Char → Nat → Nat → Option (Nat × Nat)
  | [], result, current => some (result, current)
  | c :: rest, result, current =>
    match kanjiValue? c with
    | none => none
    | some value =>
      if value ≥ 10 then
        let cur := if current = 0 then 1 else current
        if value ≥ 10000 then
          parseKanjiGo rest (result + cur * value) 0
        else
          parseKanjiGo rest (result + cur * value) 0
      else
        let result := if current > 0 then result + current else result
        parseKanjiGo rest result value

/-- `counters.py` `parse_kanji_number`. -/
def parse_kanji_number (text : Str) : Option Nat :=
  if text.isEmpty then none
  else
    match parseKanjiGo text 0 0 with
    | none => none
    | some (result, current) =>
      let result := result + current
      if result > 0 ∨ text = "零".data ∨ text = "〇".data then some result else none

/-- `counters.py` `parse_number`: the arabic branch consumes a maximal prefix of
characters in `DIGIT_VALUES` and succeeds only if it consumed the whole
(non-empty) text; otherwise fall through to `parse_kanji_number`.
(`str.isdigit` in the source admits only characters the table already covers,
for the scripts this analyzer handles.) -/
def parse_number (text : Str) : Option Nat :=
  let arabicDigits := (text.takeWhile fun c => (digitValue? c).isSome).filterMap digitValue?
  if ¬ arabicDigits.isEmpty ∧ arabicDigits.length = text.length then
    some (arabicDigits.foldl (fun acc d => acc * 10 + d) 0)
  else
    parse_kanji_number text

/-- `counters.py` `number_to_kana`.  The recursion (the 万-multiplier) is
driven by fuel so the definition is structural and kernel-computable; one
fuel unit is spent per 万-level, and the top-level call passes `n + 1`,
far above the recursion depth `log₁₀₀₀₀ n`. -/
def numberToKanaGo : Nat → Nat → Str
  | 0, _ => []
  | fuel + 1, n =>
  if n = 0 then "ゼロ".data
  else
    let manPart : Str :=
      if n ≥ 10000 then
        (if n / 10000 > 1 then numberToKanaGo fuel (n / 10000) else []) ++ "まん".data
      else []
    let n1 := if n ≥ 10000 then n % 10000 else n
    let senPart : Str :=
      if n1 ≥ 1000 then
        let sen := n1 / 1000
        if sen = 3 then "さんぜん".data
        else if sen = 8 then "はっせん".data
        else if sen > 1 then digitKana sen ++ "せん".data
        else "せん".data
      else []
    let n2 := if n1 ≥ 1000 then n1 % 1000 else n1
    let hyakuPart : Str :=
      if n2 ≥ 100 then
        let hyaku := n2 / 100
        if hyaku = 3 then "さんびゃく".data
        else if hyaku = 6 then "ろっぴゃく".data
        else if hyaku = 8 then "はっぴゃく".data
        else if hyaku > 1 then digitKana hyaku ++ "ひゃく".data
        else "ひゃく".data
      else []
    let n3 := if n2 ≥ 100 then n2 % 100 else n2
    let juuPart : Str :=
      if n3 ≥ 10 then
        (if n3 / 10 > 1 then digitKana (n3 / 10) else []) ++ "じゅう".data
      else []
    let n4 := if n3 ≥ 10 then n3 % 10 else n3
    let onesPart : Str := if n4 > 0 then digitKana n4 else []
    manPart ++ senPart ++ hyakuPart ++ juuPart ++ onesPart

/-- `counters.py` `number_to_kana`. -/
def number_to_kana (n : Nat) : Str := numberToKanaGo (n + 1) n

/-- Modelled from the spec: the digit kanji 一..九 (empty for 0; only 0–9 are
ever passed). -/
def kanjiDigit (d : Nat) : Str :=
  if d = 1 then "一".data else if d = 2 then "二".data else if d = 3 then "三".data
  else if d = 4 then "四".data else if d = 5 then "五".data else if d = 6 then "六".data
  else if d = 7 then "七".data else if d = 8 then "八".data else if d = 9 then "九".data
  else []

/-- Modelled from the spec: one place-value piece of the kanji numeral form —
nothing for digit 0, the bare multiplier for digit 1, digit plus multiplier
otherwise. -/
def kanjiBlockPiece (d : Nat) (mult : Str) : Str :=
  if d = 0 then [] else if d = 1 then mult else kanjiDigit d ++ mult

/-- Modelled from the spec: the standard positional kanji numeral form of `n`
("the defined kanji form" of §8's round-trip property, using the numerals
`零一二…百千万` that `parse_number` reads): digits 一..九 with the place
multipliers 十 百 千, the myriad group written recursively before 万, and 零
for 0.  Fueled like `numberToKanaGo`. -/
def numberToKanjiGo : Nat → Nat → Str
  | 0, _ => []
  | fuel + 1, n =>
    if n = 0 then "零".data
    else
      let m := n % 10000
      (if n ≥ 10000 then numberToKanjiGo fuel (n / 10000) ++ "万".data else []) ++
      kanjiBlockPiece (m / 1000) "千".data ++
      kanjiBlockPiece (m % 1000 / 100) "百".data ++
      kanjiBlockPiece (m % 100 / 10) "十".data ++
      kanjiDigit (m % 10)

/-- Modelled from the spec: the kanji numeral form of `n` (see
`numberToKanjiGo`). -/
def number_to_kanji (n : Nat) : Str := numberToKanjiGo (n + 1) n

/-!
## Split score tables (`splits.py`)

Only the pieces reachable from `calculate_segment_score` are needed: the
`seq`-keyed and surface-keyed tables, `should_split`, `get_split_score_bonus`
and `calculate_split_score_adjustment`.
-/

/-- splits.py DE_SPLITS, keyed seq with the score component kept (second tuple slot) -/
def DE_SPLITS : List (Nat × Int) :=
  [(1163700, 20), (1611020, 20), (1004800, 20), (2810720, 20), (1006840, 20), (1530610, 20),
   (2719270, 20), (1189420, 20), (1272220, 20), (1311360, 20), (1368500, 20), (1395670, 20),
   (1417790, 20), (1454270, 20), (1479100, 20), (1510140, 20), (1518550, 20), (1531420, 20),
   (1597400, 20), (1679990, 20), (1682060, 20), (1736650, 20), (1865020, 20), (1878880, 20),
   (2126220, 20), (2136520, 20), (2513590, 20), (2771850, 20), (2810800, 20), (1343110, 20),
   (1270210, 20), (1245390, 20)]

/-- splits.py TOORI_SPLITS, keyed seq with the score component (third tuple slot) -/
def TOORI_SPLITS : List (Nat × Int) :=
  [(1260990, 50), (1414570, 50), (1424950, 50), (1424960, 50), (1820790, 50), (1489800, 50),
   (1523010, 50), (1808080, 50), (1368820, 50), (1550490, 50), (1619440, 50), (1164910, 50),
   (1462720, 50)]

/-- splits.py DO_SPLITS, keyed seq with score -/
def DO_SPLITS : List (Nat × Int) :=
  [(2142710, 30), (2803190, 30), (2142680, 30), (2523480, 30)]

/-- splits.py SHI_SPLITS, keyed seq with score -/
def SHI_SPLITS : List (Nat × Int) :=
  [(1005700, 30), (1005830, 30), (1157200, 30), (1157220, 30), (1157230, 30), (1157280, 30),
   (1157310, 30), (1304890, 30), (1304960, 30), (1305110, 30), (1305280, 30), (1305290, 30),
   (1594300, 30), (1594310, 30), (1594460, 30), (1594580, 30), (2518250, 30), (1157240, 30),
   (1304820, 30), (2858937, 30)]

/-- splits.py COMPLEX_SPLITS, keyed seq with score -/
def COMPLEX_SPLITS : List (Nat × Int) :=
  [(1529550, 30), (1922760, 20), (2755350, 10), (1009470, 1), (1591050, 100), (1221750, 100)]

/-- splits.py SEGMENT_SPLITS, keyed seq with score -/
def SEGMENT_SPLITS : List (Nat × Int) :=
  [(1008570, -10), (2028950, -5), (1008450, -5), (1007310, -5), (1289400, -30)]

/-- splits.py DE_SUFFIX_WORDS (set literal; iteration order immaterial, only membership used) -/
def DE_SUFFIX_WORDS : List Str :=
  ["お陰で".data, "これで".data, "その上で".data, "ところで".data, "もう少しで".data,
   "一人で".data, "交代で".data, "人前で".data, "今までで".data, "何で".data,
   "何用で".data, "全体で".data, "別封で".data, "力尽くで".data, "半眼で".data,
   "単独で".data, "名義で".data, "土足で".data, "差しで".data, "抜き足で".data,
   "水入らずで".data, "無しで".data, "無断で".data, "私費で".data, "空で".data,
   "道理で".data, "金ずくで".data, "陰で".data]

/-- splits.py TOORI_SUFFIX_WORDS -/
def TOORI_SUFFIX_WORDS : List Str :=
  ["一通り".data, "中通り".data, "二通り".data, "人通り".data, "元通り".data,
   "型通り".data, "大通り".data, "本通り".data, "目通り".data, "素通り".data,
   "表通り".data, "裏通り".data]

/-- splits.py DO_PREFIX_WORDS -/
def DO_PREFIX_WORDS : List Str :=
  ["どすけべ".data, "ど下手".data, "ど根性".data, "ど田舎".data]

/-- splits.py SHI_PREFIX_WORDS -/
def SHI_PREFIX_WORDS : List Str :=
  ["しあう".data, "しおえる".data, "しかける".data, "しかねる".data, "しすぎる".data,
   "しそこなう".data, "しそこねる".data, "しそんじる".data, "しだす".data,
   "しつづける".data, "しとげる".data, "しなおす".data, "しなれる".data,
   "しにくい".data, "しのこす".data, "しはじめる".data, "しむける".data,
   "しやすい".data, "し兼ねる".data, "し出す".data, "し合う".data, "し向ける".data,
   "し吹く".data, "し始める".data, "し尽す".data, "し慣れる".data, "し掛ける".data,
   "し損じる".data, "し損なう".data, "し損ねる".data, "し易い".data, "し残す".data,
   "し直す".data, "し終える".data, "し続ける".data, "し遂げる".data, "し過ぎる".data,
   "し難い".data]

/-- splits.py COMPLEX_PATTERN_WORDS: surface mapped to (parts, score) -/
def COMPLEX_PATTERN_WORDS : List (Str × (List Str × Int)) :=
  [("なくなる".data, (["なく".data, "なる".data], 30)),
   ("無くなる".data, (["無く".data, "なる".data], 30)),
   ("という".data, (["と".data, "いう".data], 20)),
   ("といった".data, (["と".data, "いった".data], 20)),
   ("といって".data, (["と".data, "いって".data], 20)),
   ("といえば".data, (["と".data, "いえば".data], 20)),
   ("じゃない".data, (["じゃ".data, "ない".data], 10)),
   ("じゃなかった".data, (["じゃ".data, "なかった".data], 10)),
   ("なら".data, (["なら".data], 1)),
   ("気がつく".data, (["気".data, "が".data, "つく".data], 100)),
   ("気がついた".data, (["気".data, "が".data, "ついた".data], 100)),
   ("気がつかない".data, (["気".data, "が".data, "つかない".data], 100)),
   ("気のせい".data, (["気".data, "の".data, "せい".data], 100))]

/-- `splits.py` `ALL_SPLIT_SEQS` membership (union of the six key sets). -/
def seqInSplitSeqs (seq : Nat) : Bool :=
  (DE_SPLITS.any fun kv => kv.1 = seq) || (TOORI_SPLITS.any fun kv => kv.1 = seq) ||
  (DO_SPLITS.any fun kv => kv.1 = seq) || (SHI_SPLITS.any fun kv => kv.1 = seq) ||
  (COMPLEX_SPLITS.any fun kv => kv.1 = seq) || (SEGMENT_SPLITS.any fun kv => kv.1 = seq)

/-- `splits.py` `should_split`. -/
def should_split (surface : Str) (seq : Nat) : Bool :=
  seqInSplitSeqs seq ||
  DE_SUFFIX_WORDS.contains surface ||
  TOORI_SUFFIX_WORDS.contains surface ||
  DO_PREFIX_WORDS.contains surface ||
  SHI_PREFIX_WORDS.contains surface ||
  COMPLEX_PATTERN_WORDS.any fun kv => kv.1 = surface

/-- `splits.py` `get_split_score_bonus` (checks in source order). -/
def get_split_score_bonus (surface : Str) (seq : Nat) : Int :=
  match DE_SPLITS.find? fun kv => kv.1 = seq with
  | some kv => kv.2
  | none =>
  match TOORI_SPLITS.find? fun kv => kv.1 = seq with
  | some kv => kv.2
  | none =>
  match DO_SPLITS.find? fun kv => kv.1 = seq with
  | some kv => kv.2
  | none =>
  match SHI_SPLITS.find? fun kv => kv.1 = seq with
  | some kv => kv.2
  | none =>
  match COMPLEX_SPLITS.find? fun kv => kv.1 = seq with
  | some kv => kv.2
  | none =>
  match SEGMENT_SPLITS.find? fun kv => kv.1 = seq with
  | some kv => kv.2
  | none =>
  match COMPLEX_PATTERN_WORDS.find? fun kv => kv.1 = surface with
  | some kv => kv.2.2
  | none =>
  if DE_SUFFIX_WORDS.contains surface then 20
  else if TOORI_SUFFIX_WORDS.contains surface then 50
  else if DO_PREFIX_WORDS.contains surface then 30
  else if SHI_PREFIX_WORDS.contains surface then 30
  else 0

/-- `splits.py` `calculate_split_score_adjustment`: the negated bonus when the
word is a split candidate, else 0. -/
def calculate_split_score_adjustment (surface : Str) (seq : Nat) : ℚ :=
  if ¬ should_split surface seq then 0
  else (-(get_split_score_bonus surface seq) : Int)

/-!
## Scoring model (`tokenizer.py`)
-/

/-- `tokenizer.py` `MAX_WORD_LENGTH`. -/
def MAX_WORD_LENGTH : Nat := 30

/-- tokenizer.py SINGLE_CHAR_PARTICLES -/
def SINGLE_CHAR_PARTICLES : List Str :=
  ["は".data, "が".data, "を".data, "に".data, "で".data, "と".data,
   "へ".data, "も".data, "か".data, "よ".data, "ね".data]

/-- tokenizer.py PARTICLE_POS_IDS (prt = 82) -/
def PARTICLE_POS_IDS : List Nat := [82]

/-- tokenizer.py PRONOUN_POS_IDS (pn = 80, adj-pn = 44) -/
def PRONOUN_POS_IDS : List Nat := [80, 44]

/-- tokenizer.py VALID_COMPOUND_WORDS -/
def VALID_COMPOUND_WORDS : List Str :=
  ["こんにちは".data, "こんばんは".data, "では".data, "には".data, "とは".data,
   "この".data, "その".data, "あの".data, "どの".data, "これ".data, "それ".data,
   "あれ".data, "どれ".data, "ここ".data, "そこ".data, "あそこ".data, "どこ".data,
   "ところ".data, "もの".data, "こと".data, "とき".data, "どう".data, "こう".data,
   "そう".data, "ああ".data, "なんか".data, "なにか".data, "だれか".data,
   "もう".data, "まだ".data, "また".data, "なんで".data, "どうして".data,
   "もう少し".data, "もうすぐ".data, "どのくらい".data, "どうやって".data,
   "このあたり".data, "いつから".data, "今にも".data, "とても".data, "いくら".data,
   "そんなに".data, "どんなに".data, "まずい".data, "でしょうか".data,
   "静かに".data, "確かに".data, "特に".data, "本当に".data, "別に".data,
   "すぐに".data, "ついに".data, "急に".data, "単に".data, "順に".data,
   "丁寧に".data, "特別に".data, "元気に".data, "一応".data, "実際に".data,
   "現に".data, "稀に".data, "たまに".data, "絶対に".data, "ぜったいに".data,
   "ために".data, "そこまで".data, "どこまで".data, "今まで".data, "ここから".data,
   "そこから".data, "どこから".data, "みたい".data, "みたいです".data,
   "みたいだ".data, "かどうか".data, "お勧めします".data, "お願いします".data,
   "仮に".data, "かりに".data, "としても".data, "からには".data, "失敗した".data,
   "何でも".data, "なんでも".data, "一緒に".data, "いっしょに".data,
   "さえあれば".data, "いかが".data, "てか".data, "あの人".data, "この人".data,
   "その人".data, "どの人".data, "これだけ".data, "それだけ".data, "あれだけ".data,
   "どれだけ".data, "薄暗く".data, "薄暗い".data, "どこか".data, "さすが".data,
   "とのこと".data, "十二号".data, "十号".data, "一号".data, "二号".data,
   "三号".data, "いてくれて".data, "いてくれた".data, "いてくれる".data,
   "分かってくれない".data, "分かってくれた".data, "見せてくれない".data,
   "見せてくれた".data, "見せてくれる".data, "言ってる".data, "言ってた".data,
   "見たい".data, "会いたい".data, "食べたい".data, "行きたい".data, "守りたい".data,
   "なんて".data, "何と".data, "やばい".data, "からといって".data,
   "からといった".data, "わけにはいかない".data, "わけにはいきません".data,
   "かもしれない".data, "かもしれません".data, "かもしれなかった".data,
   "ならない".data, "なりません".data, "分からなくなる".data, "わからなくなる".data,
   "待ってください".data, "待ってくださいませ".data, "信じてくれない".data,
   "信じてくれる".data, "信じてくれた".data, "暴いてみせる".data, "見せてみせる".data,
   "期待されている".data, "期待されていた".data, "言われてみれば".data,
   "恐れ入りますが".data, "恐れ入ります".data, "経済政策".data, "調査中".data,
   "いい天気".data, "科学技術".data, "電話してもいい".data, "電話してもいいですか".data,
   "分かってもらえなかった".data, "分かってもらえる".data, "分かってもらえない".data,
   "おります".data, "おりました".data, "負けない".data, "負けません".data]

/-- tokenizer.py LENGTH_COEFF_SEQUENCES["strong"] -/
def coeffs_strong : List ℚ := [0, 1, 8, 24, 40, 60, 84, 112, 144, 180]

/-- tokenizer.py LENGTH_COEFF_SEQUENCES["weak"] -/
def coeffs_weak : List ℚ := [0, 1, 4, 9, 16, 25, 36, 49, 64, 81]

/-- tokenizer.py LENGTH_COEFF_SEQUENCES["tail"] -/
def coeffs_tail : List ℚ := [0, 4, 9, 16, 24, 34, 46, 60]

/-- tokenizer.py LENGTH_COEFF_SEQUENCES["ltail"] -/
def coeffs_ltail : List ℚ := [0, 4, 12, 18, 24, 32, 42, 54]

/-- `tokenizer.py` `LENGTH_COEFF_SEQUENCES` lookup (default `strong`, as
`LENGTH_COEFFS` aliases the strong sequence). -/
def coeffSequence (t : String) : List ℚ :=
  if t = "strong" then coeffs_strong
  else if t = "weak" then coeffs_weak
  else if t = "tail" then coeffs_tail
  else if t = "ltail" then coeffs_ltail
  else coeffs_strong

/-- `tokenizer.py` `get_length_coeff`: index the chosen sequence by mora length,
beyond its end extrapolate as `mora_len * mora_len * 3`. -/
def get_length_coeff (mora_len : Nat) (coeff_type : String) : ℚ :=
  let coeffs := coeffSequence coeff_type
  if mora_len < coeffs.length then coeffs.getD mora_len 0
  else ((mora_len * mora_len * 3 : Nat) : ℚ)

/-- The base-score accumulation of `calculate_segment_score` (floor 5.0, then
the kanji, commonness, primary-reading, particle and pronoun components). -/
def segment_base_score (surface : Str) (e : WordEntry) : ℚ :=
  let cost := e.cost
  let base1 : ℚ := 5
  let base2 := if has_kanji surface then base1 + 5 else base1
  let base3 :=
    if cost ≤ 10 then base2 + 15
    else if cost ≤ 30 then base2 + 10
    else if cost ≤ 50 then base2 + 5
    else base2 + 2
  let base4 := if cost < 20 then base3 + 8 else if cost < 40 then base3 + 4 else base3
  let base5 := if PARTICLE_POS_IDS.contains e.pos_id then base4 + 3 else base4
  if PRONOUN_POS_IDS.contains e.pos_id then base5 + 5 else base5

/-- The coefficient-sequence choice of `calculate_segment_score`: `strong` for
kanji-containing or katakana surfaces, `tail` for hiragana particles or
conjugated forms, `weak` for other hiragana, `strong` otherwise. -/
def segment_coeff_type (surface : Str) (e : WordEntry) : String :=
  if has_kanji surface || is_katakana surface then "strong"
  else if is_hiragana surface then
    (if PARTICLE_POS_IDS.contains e.pos_id || e.conj_type > 0 then "tail" else "weak")
  else "strong"

/-- `tokenizer.py` `calculate_segment_score`.  The `try/except` around
`mora_length` is elided (the embedded `mora_length` is total); the
`contains` import is the lexicon key test, hence the `lex` parameter. -/
def calculate_segment_score (lex : Lexicon) (surface : Str) (e : WordEntry) : ℚ :=
  let cost := e.cost
  let length := surface.length
  let base_score := segment_base_score surface e
  let m_len := mora_length surface
  let coeff_type := segment_coeff_type surface e
  let length_mult := get_length_coeff m_len coeff_type
  let ls0 := base_score * (1 + length_mult * (1 / 10))
  let ls1 :=
    if e.conj_type > 0 then
      (if e.conj_type = 4 ∧ ("ば".data).isSuffixOf surface then ls0 + 15 + 40 else ls0 + 15)
    else ls0
  let ls2 := if cost = 5 ∧ length ≥ 3 then ls1 + 25 else ls1
  let ls3 := if VALID_COMPOUND_WORDS.contains surface then ls2 + 40 else ls2
  let ls4 := ls3 + calculate_split_score_adjustment surface e.seq
  if PARTICLE_POS_IDS.contains e.pos_id then
    (15 - (cost : ℚ) * (1 / 10)) +
      (if length > 1 then ((length * length * 5 : Nat) : ℚ) else 0)
  else if length = 1 ∧ SINGLE_CHAR_PARTICLES.contains surface then
    12 - (cost : ℚ) * (1 / 10)
  else
    let ls5 := if length = 1 ∧ ¬ PARTICLE_POS_IDS.contains e.pos_id then ls4 - 30 else ls4
    if length > 2 && !(VALID_COMPOUND_WORDS.contains surface) &&
        (match surface.getLast? with
         | some c => SINGLE_CHAR_PARTICLES.contains [c] &&
             lex.containsKey (dropLastN 1 surface)
         | none => false) then
      ls5 - 30
    else ls5

/-!
## Lattice builder (`tokenizer.py`: `find_sticky_positions`, `find_all_matches`)
-/

/-- `tokenizer.py` `Segment`: a scored lattice node.  Python's `end` field is
called `stop` here (`end` is a Lean keyword). -/
structure Segment where
  surface : Str
  start : Nat
  stop : Nat
  entry : WordEntry
  score : ℚ
  deriving Repr, DecidableEq

/-- `Segment.reading`: hiragana of kana surfaces, else the surface. -/
def Segment.reading (s : Segment) : Str :=
  if is_kana s.surface then as_hiragana s.surface else s.surface

/-- `Segment.pos`. -/
def Segment.pos (s : Segment) : String := get_pos_name s.entry.pos_id

/-- `Segment.base_form`: both branches of the source return the surface
(the non-root branch is a TODO returning `surface` as well). -/
def Segment.base_form (s : Segment) : Str := s.surface

/-- `Segment.base_form_id`. -/
def Segment.base_form_id (s : Segment) : Nat := s.entry.base_form_id

/-- `tokenizer.py` `find_sticky_positions`: positions where a word may not
start or end — modifier-class positions, and the position after a mid-string
sokuon. -/
def find_sticky_positions (text : Str) : List Nat :=
  (List.range text.length).flatMap fun i =>
    let cls := get_char_class (text.getD i ' ')
    (if MODIFIER_CLASSES.contains cls then [i] else []) ++
    (if cls = "sokuon" ∧ i < text.length - 1 then [i + 1] else [])

/-- Inner loop of `find_all_matches` for one `start`: walk the candidate `end`
positions in order; skip sticky ends, break at the first slice without the
prefix, emit a span whenever `lookup` is non-empty (one `Segment` per record). -/
def scanEnds (lex : Lexicon) (text : Str) (sticky : List Nat) (start : Nat) :
    List Nat → List ((Nat × Nat) × List Segment)
  | [] => []
  | e :: rest =>
    if sticky.contains e then scanEnds lex text sticky start rest
    else
      let sub := sliceCP text start e
      if ¬ lex.hasPref sub then []
      else
        let entries := lex.lookup sub
        if entries.isEmpty then scanEnds lex text sticky start rest
        else
          ((start, e), entries.map fun en =>
            { surface := sub, start := start, stop := e, entry := en,
              score := calculate_segment_score lex sub en }) ::
          scanEnds lex text sticky start rest

/-- `tokenizer.py` `find_all_matches`: for every non-sticky `start`, candidate
ends run from `start+1` to `min (start + MAX_WORD_LENGTH) text.length`.  The
Python dict keyed by `(start, end)` is an association list here (each span is
visited once, and insertion order is the enumeration order). -/
def find_all_matches (lex : Lexicon) (text : Str) : List ((Nat × Nat) × List Segment) :=
  let sticky := find_sticky_positions text
  (List.range text.length).flatMap fun start =>
    if sticky.contains start then []
    else scanEnds lex text sticky start
      (List.range' (start + 1) (min (start + MAX_WORD_LENGTH) text.length - start))

/-!
## Path selector (`tokenizer.py` `find_best_path`)
-/

/-- `tokenizer.py` `UNKNOWN_CHAR_PENALTY`. -/
def UNKNOWN_CHAR_PENALTY : ℚ := -50

/-- One entry of the DP table: `(best_score, prev_end, segment)`; `segment` is
`none` for a gap transition. -/
structure DPEntry where
  score : ℚ
  prev : Option Nat
  seg : Option Segment
  deriving Repr, DecidableEq

/-- The DP table: Python dict from position to entry list, as an association
list preserving insertion order. -/
abbrev DP := List (Nat × List DPEntry)

/-- Dict read. -/
def dpGet (dp : DP) (p : Nat) : Option (List DPEntry) :=
  ((dp.find? fun kv => kv.1 = p).map fun kv => kv.2)

/-- Dict write: replace in place if the key exists (Python dicts keep the
original insertion position), else append. -/
def dpSet (dp : DP) (p : Nat) (v : List DPEntry) : DP :=
  if dp.any fun kv => kv.1 = p then
    dp.map fun kv => if kv.1 = p then (p, v) else kv
  else dp ++ [(p, v)]

/-- Stable descending sort by score then truncation: Python's
`sorted(entries, key=lambda x: -x[0])[:k]` (timsort is stable; so is
insertion sort with this non-strict relation). -/
def topEntries (k : Nat) (entries : List DPEntry) : List DPEntry :=
  (entries.insertionSort fun a b => b.score ≤ a.score).take k

/-- Python's `max(segments, key=lambda s: s.score)`: first maximal element. -/
def maxByScore (s : Segment) (rest : List Segment) : Segment :=
  rest.foldl (fun best cand => if cand.score > best.score then cand else best) s

/-- Gap creation at an unreachable position: find the nearest earlier position
in the table and append one gap entry per entry there, with penalty
`UNKNOWN_CHAR_PENALTY * (pos - prev)`. -/
def gapFill (dp : DP) (pos : Nat) : DP :=
  match ((List.range pos).reverse.find? fun q => dp.any fun kv => kv.1 = q) with
  | none => dp
  | some prev =>
    let source := (dpGet dp prev).getD []
    let gapEntries := source.map fun pe =>
      { score := pe.score + UNKNOWN_CHAR_PENALTY * ((pos : ℚ) - (prev : ℚ)),
        prev := some prev, seg := none : DPEntry }
    dpSet dp pos gapEntries

/-- Forward relaxation at one position: if unreachable, first back-fill a gap
(`allow_gaps`); then, for every span of the lattice starting here, relax the
best-scoring segment of the span into its end, keeping the top `2*limit`
entries per position. -/
def fbpProcessPos (spans : List ((Nat × Nat) × List Segment)) (limit : Nat)
    (allow_gaps : Bool) (dp : DP) (pos : Nat) : DP :=
  let dp := if (dpGet dp pos).isSome then dp
            else if allow_gaps then gapFill dp pos else dp
  match dpGet dp pos with
  | none => dp
  | some entriesAtPos =>
    spans.foldl (fun dp sp =>
      let span := sp.1
      let segs := sp.2
      if span.1 ≠ pos then dp
      else
        match segs with
        | [] => dp
        | s0 :: srest =>
          let best := maxByScore s0 srest
          entriesAtPos.foldl (fun dp pe =>
            let cur := (dpGet dp span.2).getD []
            let appended := cur ++
              [{ score := pe.score + best.score, prev := some pos, seg := some best }]
            dpSet dp span.2 (topEntries (limit * 2) appended)) dp) dp

/-- Backtracking walk of the source: follow `prev` pointers, always taking the
first entry stored at the previous position; collect segments, record gap
spans; stop when `prev` is `None`, `0`, or missing from the table.  `fuel`
bounds the walk (each step strictly decreases the position). -/
def backtrackGo (dp : DP) : Nat → Nat → DPEntry → (List Segment × List (Nat × Nat))
  | 0, _, _ => ([], [])
  | fuel + 1, current_pos, entry =>
    let pathHere : List Segment := match entry.seg with | some s => [s] | none => []
    let gapsHere : List (Nat × Nat) :=
      match entry.seg, entry.prev with
      | none, some p => if current_pos > p then [(p, current_pos)] else []
      | _, _ => []
    match entry.prev with
    | none => (pathHere, gapsHere)
    | some 0 => (pathHere, gapsHere)
    | some p =>
      match (dpGet dp p).getD [] with
      | [] => (pathHere, gapsHere)
      | e2 :: _ =>
        let rest := backtrackGo dp fuel p e2
        (pathHere ++ rest.1, gapsHere ++ rest.2)

/-- `tokenizer.py` `find_best_path`: forward DP over positions `0..n`, gap
back-fill for unreachable positions (including the final one), backtracking
for each entry at `n`, then a stable sort by score descending and truncation
to `limit`. -/
def find_best_path (spans : List ((Nat × Nat) × List Segment)) (text_length : Nat)
    (limit : Nat) (allow_gaps : Bool := true) : List (List Segment × ℚ) :=
  if spans.isEmpty then []
  else
    let dp0 : DP := [(0, [{ score := 0, prev := none, seg := none }])]
    let dp := (List.range (text_length + 1)).foldl (fbpProcessPos spans limit allow_gaps) dp0
    let dp := if (dpGet dp text_length).isSome then dp
              else if allow_gaps then gapFill dp text_length else dp
    match dpGet dp text_length with
    | none => []
    | some finals =>
      let results := finals.filterMap fun fe =>
        let walked := backtrackGo dp (text_length + 1) text_length fe
        let path := walked.1.reverse
        let gaps := walked.2.reverse
        if ¬ path.isEmpty ∨ ¬ gaps.isEmpty then some (path, fe.score, gaps) else none
      let sorted := results.insertionSort fun a b => b.2.1 ≤ a.2.1
      (sorted.take limit).map fun r => (r.1, r.2.1)

/-!
## Tokens and the rewriter (`tokenizer.py` merge passes, `suffix_splitting.py`)
-/

/-- `himotoki_split.__init__` `Token` (Python's `end` field is `stop` here;
`end` is a Lean keyword). -/
structure Token where
  surface : Str
  reading : Str
  pos : String
  base_form : Str
  base_form_id : Nat
  start : Nat
  stop : Nat
  deriving Repr, DecidableEq

/-- tokenizer.py TE_FORM_MERGE_PATTERNS -/
def TE_FORM_MERGE_PATTERNS : List Str :=
  ["いる".data,
  "いた".data,
  "います".data,
  "いました".data,
  "いて".data,
  "いない".data,
  "いません".data,
  "しまう".data,
  "しまった".data,
  "しまいます".data,
  "しまいました".data,
  "ください".data,
  "くださる".data,
  "くださった".data,
  "くださいます".data,
  "おく".data,
  "おいた".data,
  "おきます".data,
  "おきました".data,
  "くる".data,
  "きた".data,
  "きます".data,
  "きました".data,
  "いく".data,
  "いった".data,
  "いきます".data,
  "いきました".data,
  "あげる".data,
  "あげた".data,
  "もらう".data,
  "もらった".data,
  "みせる".data,
  "みせた".data,
  "みせます".data,
  "みせました".data,
  "くれる".data,
  "くれた".data,
  "くれない".data,
  "くれません".data,
  "もらえる".data,
  "もらえた".data,
  "もらえない".data,
  "もらえなかった".data,
  "もらえません".data,
  "みれば".data]

/-- tokenizer.py PASSIVE_MERGE_PATTERNS -/
def PASSIVE_MERGE_PATTERNS : List Str :=
  ["ている".data,
  "ていた".data,
  "ています".data,
  "ていました".data,
  "ていない".data,
  "ていません".data]

/-- tokenizer.py PASSIVE_STEM_ENDINGS -/
def PASSIVE_STEM_ENDINGS : List Str :=
  ["され".data,
  "られ".data,
  "かれ".data,
  "まれ".data,
  "たれ".data,
  "なれ".data,
  "ばれ".data,
  "がれ".data,
  "ぜれ".data]

/-- tokenizer.py SURU_CONTINUATION_PATTERNS -/
def SURU_CONTINUATION_PATTERNS : List Str :=
  ["しています".data,
  "していた".data,
  "していて".data,
  "していない".data,
  "していません".data,
  "しておいた".data,
  "しておく".data,
  "しておきます".data,
  "しておいて".data,
  "し続けている".data,
  "し続けて".data,
  "し続ける".data,
  "し続けた".data,
  "し始める".data,
  "し始めた".data,
  "し始めて".data,
  "してもいい".data,
  "してもいいですか".data,
  "してもいいです".data]

/-- tokenizer.py MULTI_TOKEN_MERGES -/
def MULTI_TOKEN_MERGES : List (List Str × Str) :=
  [(["くだ".data, "さい".data], "ください".data),
   (["とい".data, "って".data], "といって".data),
   (["から".data, "といって".data], "からといって".data),
   (["わけ".data, "には".data, "いかない".data], "わけにはいかない".data),
   (["分".data, "から".data, "なく".data, "なる".data], "分からなくなる".data),
   (["分".data, "から".data, "なくなる".data], "分からなくなる".data),
   (["かも".data, "しれ".data, "ない".data], "かもしれない".data),
   (["かも".data, "しれない".data], "かもしれない".data),
   (["なら".data, "ない".data], "ならない".data),
   (["恐れ".data, "入ります".data, "が".data], "恐れ入りますが".data),
   (["恐れ".data, "入りますが".data], "恐れ入りますが".data),
   (["くれ".data, "ない".data], "くれない".data),
   (["も".data, "ら".data, "えなかった".data], "もらえなかった".data),
   (["期待".data, "され".data, "ている".data], "期待されている".data),
   (["され".data, "ている".data], "されている".data),
   (["み".data, "せる".data], "みせる".data),
   (["待って".data, "ください".data], "待ってください".data),
   (["電話".data, "して".data, "も".data, "いい".data], "電話してもいい".data)]

/-- suffix_splitting.py SPLIT_PARTICLES -/
def SPLIT_PARTICLES : List Str :=
  ["を".data,
  "に".data,
  "へ".data]

/-- suffix_splitting.py NO_SPLIT_COMPOUNDS -/
def NO_SPLIT_COMPOUNDS : List Str :=
  ["には".data,
  "では".data,
  "とは".data,
  "にも".data,
  "でも".data,
  "ても".data,
  "まで".data,
  "から".data,
  "より".data,
  "のに".data,
  "ので".data,
  "のか".data,
  "のを".data,
  "ための".data,
  "ために".data,
  "からには".data,
  "ではない".data,
  "について".data,
  "に対して".data,
  "にとって".data,
  "において".data,
  "における".data,
  "として".data,
  "とともに".data,
  "によって".data,
  "により".data,
  "による".data,
  "すぐに".data,
  "ついに".data,
  "ほかに".data,
  "ひさしぶりに".data,
  "久しぶりに".data,
  "げんに".data,
  "現に".data,
  "まれに".data,
  "稀に".data,
  "たまに".data,
  "ほんとうに".data,
  "本当に".data,
  "たしかに".data,
  "確かに".data,
  "いちおうに".data,
  "一応に".data,
  "じっさいに".data,
  "実際に".data,
  "べつに".data,
  "別に".data,
  "とくに".data,
  "特に".data,
  "たんに".data,
  "単に".data,
  "じゅんに".data,
  "順に".data,
  "しだいに".data,
  "次第に".data,
  "てきに".data,
  "的に".data,
  "ていねいに".data,
  "丁寧に".data,
  "とくべつに".data,
  "特別に".data,
  "しずかに".data,
  "静かに".data,
  "げんきに".data,
  "元気に".data,
  "たしかに".data,
  "確かに".data,
  "ぜったいに".data,
  "絶対に".data,
  "かりに".data,
  "仮に".data,
  "一緒に".data,
  "いっしょに".data,
  "そんなに".data,
  "こんなに".data,
  "あんなに".data,
  "どんなに".data,
  "ように".data,
  "ような".data,
  "何で".data,
  "何と".data,
  "何か".data,
  "誰か".data,
  "どこへ".data,
  "なにか".data,
  "だれか".data,
  "どうに".data,
  "なんか".data,
  "なんで".data,
  "なんと".data,
  "我が".data,
  "わが".data,
  "てか".data,
  "としても".data,
  "だけど".data,
  "だよね".data,
  "だから".data,
  "だって".data]

/-- suffix_splitting.py NO_SPLIT_DA_WORDS -/
def NO_SPLIT_DA_WORDS : List Str :=
  ["そうだ".data,
  "ほんとうだ".data,
  "本当だ".data,
  "だいじょうぶだ".data,
  "大丈夫だ".data,
  "はだ".data,
  "肌".data]

/-- suffix_splitting.py N_SPLIT_BASE_ENDINGS -/
def N_SPLIT_BASE_ENDINGS : List Str :=
  ["い".data,
  "る".data,
  "た".data,
  "て".data,
  "だ".data]

/-- suffix_splitting.py NO_SPLIT_N_WORDS -/
def NO_SPLIT_N_WORDS : List Str :=
  ["さん".data,
  "くん".data,
  "ちゃん".data,
  "はん".data,
  "みんな".data,
  "ぜんぶ".data,
  "全部".data,
  "ほんと".data,
  "ほんとう".data,
  "本当".data,
  "うん".data,
  "ふん".data,
  "へん".data,
  "変".data,
  "ぶん".data,
  "分".data,
  "にん".data,
  "人".data,
  "じん".data,
  "えん".data,
  "円".data,
  "けん".data,
  "件".data,
  "せん".data,
  "千".data,
  "てん".data,
  "点".data,
  "ねん".data,
  "年".data,
  "べん".data,
  "めん".data,
  "面".data,
  "げん".data,
  "限".data,
  "なん".data,
  "何".data,
  "こん".data,
  "そん".data,
  "あん".data,
  "どん".data]

/-- suffix_splitting.py MERGED_PARTICLE_COMPOUNDS -/
def MERGED_PARTICLE_COMPOUNDS : List Str :=
  ["につき".data,
  "にて".data,
  "にも".data,
  "には".data,
  "にと".data,
  "にの".data,
  "にか".data,
  "にな".data,
  "にさ".data,
  "への".data,
  "とか".data,
  "とも".data,
  "とを".data,
  "とが".data,
  "をも".data,
  "もの".data,
  "での".data,
  "でも".data,
  "から".data,
  "まで".data,
  "より".data,
  "ほど".data,
  "など".data,
  "だけ".data,
  "しか".data,
  "ばかり".data,
  "くらい".data,
  "ぐらい".data,
  "ように".data]

/-- suffix_splitting.py PREFIX_SPLIT_PATTERNS -/
def PREFIX_SPLIT_PATTERNS : List Str :=
  ["につきまして".data,
  "につき".data,
  "となって".data,
  "になった".data,
  "になる".data,
  "になります".data,
  "になりました".data,
  "であった".data,
  "であろう".data,
  "である".data,
  "ではない".data,
  "ではなく".data,
  "んです".data,
  "んだ".data,
  "んだけど".data,
  "んだよね".data]

/-- suffix_splitting.py COMPOUND_VERB_SPLITS -/
def COMPOUND_VERB_SPLITS : List (Str × List Str) :=
  [("お願い申し上げます".data, ["お願い".data, "申し上げます".data]),
   ("教えてあげた".data, ["教えて".data, "あげた".data]),
   ("教えてあげる".data, ["教えて".data, "あげる".data]),
   ("と言われている".data, ["と".data, "言われている".data])]

/-- suffix_splitting.py MERGE_PATTERNS -/
def MERGE_PATTERNS : List (List Str × Str) :=
  [(["では".data, "ない".data], "ではない".data),
   (["では".data, "なく".data], "ではなく".data),
   (["お勧め".data, "します".data], "お勧めします".data),
   (["だ".data, "けど".data], "だけど".data),
   (["だ".data, "よね".data], "だよね".data),
   (["知って".data, "いたら".data], "知っていたら".data),
   (["起きて".data, "いたら".data], "起きていたら".data),
   (["に".data, "は".data], "には".data),
   (["で".data, "は".data], "では".data),
   (["と".data, "は".data], "とは".data),
   (["食べて".data, "もらえなかった".data], "食べてもらえなかった".data),
   (["食べて".data, "もらった".data], "食べてもらった".data),
   (["食べて".data, "もらう".data], "食べてもらう".data),
   (["食べて".data, "もらえる".data], "食べてもらえる".data)]

/-- suffix_splitting.py TE_FORM_EXTENSIONS -/
def TE_FORM_EXTENSIONS : List Str :=
  ["いれば".data,
  "いたら".data,
  "おります".data,
  "おりました".data,
  "おいてください".data]

/-- suffix_splitting.py TOKEN_SUBSTITUTIONS (dict semantics: duplicate keys keep
first position, last value; insertion order preserved as in CPython) -/
def TOKEN_SUBSTITUTIONS : List (List Str × List Str) :=
  [(["今日は".data], ["今日".data, "は".data]),
   (["のせ".data, "いだ".data], ["の".data, "せい".data, "だ".data]),
   (["彼の".data], ["彼".data, "の".data]),
   (["彼女の".data], ["彼女".data, "の".data]),
   (["山の頂".data, "上".data], ["山".data, "の".data, "頂上".data]),
   (["あげ".data, "たい".data], ["あげたい".data]),
   (["もらえ".data, "なかった".data], ["もらえなかった".data]),
   (["そうかもしれない".data], ["そう".data, "かもしれない".data]),
   (["顔".data, "をしていた".data], ["顔".data, "を".data, "していた".data]),
   (["薄".data, "暗".data, "く".data], ["薄暗く".data]),
   (["薄".data, "暗く".data], ["薄暗く".data]),
   (["薄".data, "暗い".data], ["薄暗い".data]),
   (["考え".data, "てん".data], ["考えて".data, "ん".data]),
   (["言".data, "わ".data, "ずに".data], ["言わず".data, "に".data]),
   (["体を壊さなかった".data], ["体".data, "を".data, "壊さなかった".data]),
   (["できるようになった".data], ["できる".data, "ようになった".data]),
   (["出".data, "られなかった".data], ["出られなかった".data]),
   (["すればするほど".data], ["すれば".data, "する".data, "ほど".data]),
   (["食べ".data, "さ".data, "せられた".data], ["食べさせられた".data]),
   (["のか".data, "な".data], ["の".data, "かな".data]),
   (["なんとかなる".data], ["なんとか".data, "なる".data]),
   (["考え".data, "なければならない".data], ["考えなければ".data, "ならない".data]),
   (["判".data, "断を下す".data], ["判断".data, "を".data, "下す".data]),
   (["よう".data, "に".data], ["ように".data]),
   (["心配をかけさせて".data, "しまって".data], ["心配をかけさせてしまって".data]),
   (["宿".data, "駅に止まります".data], ["宿駅".data, "に".data, "止まります".data]),
   (["盗".data, "ま".data, "れた".data], ["盗まれた".data]),
   (["待".data, "た".data, "された".data], ["待たされた".data]),
   (["最近".data, "どうして".data, "る".data], ["最近どう".data, "してる".data]),
   (["俺".data, "たち".data], ["俺たち".data]),
   (["守り".data, "たい".data], ["守りたい".data]),
   (["もの".data, "が".data, "ある".data], ["ものがある".data]),
   (["強".data, "く".data, "なれる".data], ["強くなれる".data]),
   (["諦めるな".data], ["諦める".data, "な".data]),
   (["して".data, "ない".data], ["してない".data]),
   (["サボ".data, "っちゃった".data], ["サボっちゃった".data]),
   (["怒".data, "られた".data], ["怒られた".data]),
   (["見せて".data, "くれない".data], ["見せてくれない".data]),
   (["忘れ".data, "物した".data], ["忘れ物".data, "した".data]),
   (["回復アイテム".data], ["回復".data, "アイテム".data]),
   (["から".data, "には".data], ["からには".data]),
   (["約束".data, "した".data], ["約束した".data]),
   (["会え".data, "たね".data], ["会えた".data, "ね".data]),
   (["さす".data, "が".data], ["さすが".data]),
   (["思った".data, "とおり".data], ["思った".data, "と".data, "おり".data]),
   (["となりました".data], ["と".data, "なりました".data]),
   (["となっている".data], ["と".data, "なっている".data]),
   (["十二".data, "号".data], ["十二号".data]),
   (["と".data, "の".data, "こと".data], ["とのこと".data]),
   (["確認".data, "されました".data], ["確認されました".data]),
   (["議論".data, "されている".data], ["議論されている".data]),
   (["懸念".data, "されている".data], ["懸念されている".data]),
   (["再開".data, "されました".data], ["再開されました".data]),
   (["強化".data, "されている".data], ["強化されている".data]),
   (["実施".data, "されている".data], ["実施されている".data]),
   (["開始".data, "されました".data], ["開始されました".data]),
   (["施行".data, "されました".data], ["施行されました".data]),
   (["適用".data, "される".data], ["適用される".data]),
   (["検討".data, "されている".data], ["検討されている".data]),
   (["合意".data, "された".data], ["合意された".data]),
   (["期待".data, "されている".data], ["期待されている".data]),
   (["開始".data, "された".data], ["開始された".data]),
   (["後押し".data, "している".data], ["後押ししている".data]),
   (["難航".data, "している".data], ["難航している".data]),
   (["本格化".data, "している".data], ["本格化している".data]),
   (["重要".data, "視されている".data], ["重要視されている".data]),
   (["探索".data, "する".data], ["探索する".data]),
   (["攻略".data, "しよう".data], ["攻略しよう".data]),
   (["見た".data, "い".data], ["見たい".data]),
   (["それ".data, "は".data, "ない".data], ["それはない".data]),
   (["言って".data, "る".data], ["言ってる".data]),
   (["いて".data, "くれて".data], ["いてくれて".data]),
   (["いて".data, "くれた".data], ["いてくれた".data]),
   (["分かって".data, "くれない".data], ["分かってくれない".data]),
   (["信じて".data, "くれない".data], ["信じてくれない".data]),
   (["許して".data, "もらえます".data], ["許してもらえます".data]),
   (["謝って".data, "も".data], ["謝っても".data]),
   (["もう".data, "一度".data], ["もう一度".data]),
   (["必要".data, "な".data, "の".data], ["必要".data, "なの".data]),
   (["距離を置きましょう".data], ["距離".data, "を".data, "置きましょう".data]),
   (["十".data, "二号".data], ["十二号".data]),
   (["本".data, "当の".data], ["本当".data, "の".data]),
   (["再生可能エネルギー".data], ["再生可能".data, "エネルギー".data]),
   (["プラスチックごみ".data], ["プラスチック".data, "ごみ".data]),
   (["提出".data, "してください".data], ["提出してください".data]),
   (["徹底".data, "してください".data], ["徹底してください".data]),
   (["連絡".data, "してください".data], ["連絡してください".data]),
   (["処方".data, "します".data], ["処方します".data]),
   (["請求".data, "します".data], ["請求します".data]),
   (["逮捕".data, "します".data], ["逮捕します".data]),
   (["行使".data, "します".data], ["行使します".data]),
   (["出所".data, "しました".data], ["出所しました".data]),
   (["検討".data, "します".data], ["検討します".data]),
   (["自首".data, "する".data], ["自首する".data]),
   (["反対".data, "する".data], ["反対する".data]),
   (["賛成".data, "しよう".data], ["賛成しよう".data]),
   (["サイン".data, "して".data], ["サインして".data]),
   (["更生".data, "して".data], ["更生して".data]),
   (["別れ".data, "たくない".data], ["別れたくない".data]),
   (["戻り".data, "たい".data], ["戻りたい".data]),
   (["辞めた".data, "い".data], ["辞めたい".data]),
   (["会社を辞めた".data, "い".data, "ん".data, "です".data], ["会社を辞めたい".data, "ん".data, "です".data]),
   (["謝罪".data, "したい".data], ["謝罪したい".data]),
   (["行き".data, "たくない".data], ["行きたくない".data]),
   (["キャンセル".data, "したい".data], ["キャンセルしたい".data]),
   (["後悔".data, "して".data, "も".data], ["後悔しても".data]),
   (["説明".data, "して".data, "も".data], ["説明しても".data]),
   (["頑張って".data, "も".data], ["頑張っても".data]),
   (["失敗".data, "して".data, "も".data], ["失敗しても".data]),
   (["あって".data, "も".data], ["あっても".data]),
   (["謝った".data, "ところ".data, "で".data], ["謝った".data, "ところで".data]),
   (["泣いた".data, "ところ".data, "で".data], ["泣いた".data, "ところで".data]),
   (["した".data, "ところ".data, "で".data], ["した".data, "ところで".data]),
   (["ことがあって".data, "も".data], ["ことがあっても".data]),
   (["超えてしまいました".data], ["超えて".data, "しまいました".data]),
   (["達".data, "成しました".data], ["達成しました".data]),
   (["早".data, "急".data], ["早急".data]),
   (["めどが立ちました".data], ["めど".data, "が".data, "立ちました".data]),
   (["帰らせて".data, "もらいます".data], ["帰らせてもらいます".data]),
   (["はき".data, "ちん".data, "と".data], ["は".data, "きちんと".data]),
   (["左遷".data, "されました".data], ["左遷されました".data]),
   (["どう".data, "ですか".data], ["どうですか".data]),
   (["暑く".data, "なりました".data, "ね".data], ["暑くなりましたね".data]),
   (["寒く".data, "なりました".data, "ね".data], ["寒くなりましたね".data]),
   (["遅".data, "く".data, "なって".data], ["遅くなって".data]),
   (["かかり".data, "そうです".data], ["かかりそうです".data]),
   (["悪く".data, "なりました".data], ["悪くなりました".data]),
   (["いり".data, "ません".data], ["いりません".data]),
   (["お".data, "持ち".data, "ですか".data], ["お持ちですか".data]),
   (["譲り".data, "ましょうか".data], ["譲りましょうか".data]),
   (["置いて".data, "も".data, "いいですか".data], ["置いても".data, "いいですか".data]),
   (["開けて".data, "も".data, "いいですか".data], ["開けても".data, "いいですか".data]),
   (["撮って".data, "もらえますか".data], ["撮ってもらえますか".data]),
   (["して".data, "も".data, "いいですか".data], ["しても".data, "いいですか".data]),
   (["おかわり".data, "できますか".data], ["おかわりできますか".data]),
   (["別々".data, "に".data, "払います".data], ["別々に".data, "払います".data]),
   (["お邪魔".data, "しました".data], ["お邪魔しました".data]),
   (["また".data, "お".data, "会いましょう".data], ["また".data, "お会いしましょう".data]),
   (["ご".data, "対応".data, "いただけますか".data], ["ご".data, "対応いただけますか".data]),
   (["ご".data, "案内".data, "いたします".data], ["ご".data, "案内いたします".data]),
   (["ご".data, "連絡".data, "いたします".data], ["ご".data, "連絡いたします".data]),
   (["ご".data, "提案".data, "させていただきます".data], ["ご".data, "提案させていただきます".data]),
   (["ご".data, "決裁".data, "を".data, "いただきたく".data, "存じます".data], ["ご".data, "決裁".data, "を".data, "いただきたく存じます".data]),
   (["お".data, "受け取り".data, "ください".data], ["お".data, "受け取りください".data]),
   (["ご".data, "挨拶".data, "が".data, "遅れまして".data], ["ご挨拶".data, "が".data, "遅れまして".data]),
   (["ご".data, "連絡".data, "失礼".data, "いたします".data], ["ご連絡".data, "失礼いたします".data]),
   (["お".data, "時間".data, "を".data, "頂戴".data, "できますでしょうか".data], ["お時間".data, "を".data, "頂戴できます".data, "でしょうか".data]),
   (["ご".data, "多用".data, "の".data, "ところ".data, "恐縮".data, "です".data, "が".data], ["ご".data, "多用".data, "の".data, "ところ".data, "恐縮".data, "ですが".data]),
   (["お".data, "付き合い".data], ["お".data, "付き合い".data]),
   (["ガチ".data, "で".data], ["ガチで".data]),
   (["おつ".data, "か".data, "れー".data], ["お".data, "つかれ".data, "ー".data]),
   (["やば".data, "すぎ".data], ["やばすぎ".data]),
   (["何".data, "それ".data], ["何それ".data]),
   (["暑".data, "すぎ".data], ["暑すぎ".data]),
   (["寒".data, "すぎ".data], ["寒すぎ".data]),
   (["もう".data, "無理".data], ["もう無理".data]),
   (["か".data, "わい".data, "すぎて".data], ["かわいすぎて".data]),
   (["よ".data, "すぎ".data], ["よすぎ".data]),
   (["いい".data, "ね".data], ["いいね".data]),
   (["分かって".data, "もらえなかった".data], ["分かってもらえなかった".data]),
   (["言って".data, "くれれば".data], ["言ってくれれば".data]),
   (["分".data, "から".data, "なくなる".data], ["分からなくなる".data]),
   (["自分".data, "で".data], ["自分で".data]),
   (["に".data, "して".data, "も".data], ["にしても".data]),
   (["言い訳".data, "を".data, "した".data, "ところ".data, "で".data], ["言い訳".data, "を".data, "した".data, "ところで".data]),
   (["許して".data, "もらえない".data], ["許してもらえない".data]),
   (["来".data, "ないことには".data], ["来ない".data, "こと".data, "には".data]),
   (["解決".data, "しない".data], ["解決しない".data]),
   (["やってみて".data], ["やって".data, "みて".data]),
   (["やってみなければ".data], ["やって".data, "みなければ".data]),
   (["大切".data, "さ".data], ["大切さ".data]),
   (["よ".data, "さ".data], ["よさ".data]),
   (["さえ".data, "すれば".data], ["さえすれば".data]),
   (["くれ".data, "さえ".data], ["くれ".data, "さえ".data]),
   (["いて".data, "くれ".data], ["いてくれ".data]),
   (["ようにして".data, "おこう".data], ["ようにしておこう".data]),
   (["お金".data, "が".data, "ないことには".data], ["お".data, "金がない".data, "こと".data, "には".data]),
   (["いて".data, "くれ".data, "さえ".data], ["いてくれ".data, "さえ".data]),
   (["養育費".data, "きちんと".data], ["養育費".data, "は".data, "きちんと".data]),
   (["最近".data, "どう".data], ["最近どう".data]),
   (["暑".data, "く".data], ["暑く".data]),
   (["寒".data, "く".data], ["寒く".data]),
   (["お先に失礼します".data], ["お先に".data, "失礼します".data]),
   (["また".data, "明日".data], ["また明日".data]),
   (["電話".data, "し".data, "てもいいです".data, "か".data], ["電話してもいい".data, "です".data, "か".data]),
   (["遅く".data, "なって".data], ["遅くなって".data]),
   (["時間がかかり".data, "そう".data], ["時間がかかりそう".data]),
   (["都合".data, "が".data, "悪くなりました".data], ["都合が悪く".data, "なりました".data]),
   (["キャンセルしたい".data, "のです".data, "が".data], ["キャンセルしたい".data, "の".data, "ですが".data]),
   (["おつり".data, "はいりません".data], ["お".data, "つり".data, "は".data, "いりません".data]),
   (["袋".data, "はいりません".data], ["袋".data, "は".data, "いりません".data]),
   (["ポイントカード".data], ["ポイント".data, "カード".data]),
   (["席を譲りましょう".data, "か".data], ["席".data, "を".data, "譲りましょう".data, "か".data]),
   (["置いて".data, "も".data, "いいです".data, "か".data], ["置いても".data, "いいです".data, "か".data]),
   (["開け".data, "てもいいです".data, "か".data], ["開けても".data, "いいです".data, "か".data]),
   (["写真を撮って".data, "もらえます".data, "か".data], ["写真を撮ってもらえます".data, "か".data]),
   (["おかわり".data, "できます".data, "か".data], ["おかわりできます".data, "か".data]),
   (["また".data, "お".data, "会".data, "いしましょう".data], ["また".data, "お".data, "会い".data, "しましょう".data]),
   (["いつ".data, "も".data], ["いつも".data]),
   (["別途".data, "ご案内".data, "いたします".data], ["別途".data, "ご".data, "案内いたします".data]),
   (["改めて".data, "ご連絡".data, "いたします".data], ["改めて".data, "ご連絡いたします".data]),
   (["ご提案させていただきます".data], ["ご".data, "提案させていただきます".data]),
   (["いただき".data, "たく".data], ["いただきたく".data]),
   (["で".data, "すがお".data], ["ですが".data, "お".data]),
   (["心ばかり".data, "で".data, "すがお".data, "受け取り".data, "ください".data], ["心ばかり".data, "ですが".data, "お".data, "受け取り".data, "ください".data]),
   (["失礼".data, "いたしました".data], ["失礼いたしました".data]),
   (["失礼".data, "いたします".data], ["失礼いたします".data]),
   (["頂戴".data, "できます".data], ["頂戴できます".data]),
   (["ご多用のところ恐縮ですが".data], ["ご".data, "多用".data, "の".data, "ところ".data, "恐縮".data, "ですが".data]),
   (["お付き合い".data], ["お".data, "付き合い".data]),
   (["ないこと".data, "には".data], ["ないことには".data]),
   (["のです".data, "が".data], ["の".data, "ですが".data]),
   (["提案".data, "させていただきます".data], ["提案させていただきます".data]),
   (["ご".data, "多用".data], ["ご".data, "多用".data]),
   (["仕事".data, "はし".data], ["仕事".data, "は".data, "し".data]),
   (["下りない".data, "こと".data, "には".data], ["下り".data, "ないことには".data]),
   (["やば".data, "いな".data], ["やばい".data, "な".data])]

/-- suffix_splitting.py SURU_COMPOUND_NOUNS -/
def SURU_COMPOUND_NOUNS : List Str :=
  ["変更".data,
  "開始".data,
  "終了".data,
  "確認".data,
  "入力".data,
  "出力".data,
  "設定".data,
  "削除".data,
  "旅行".data,
  "勉強".data,
  "練習".data,
  "運動".data,
  "仕事".data,
  "通勤".data,
  "出勤".data,
  "退勤".data,
  "失敗".data,
  "成功".data,
  "達成".data,
  "完成".data,
  "完了".data,
  "決定".data,
  "予定".data,
  "計画".data,
  "準備".data,
  "対応".data,
  "対策".data,
  "説明".data,
  "報告".data,
  "連絡".data,
  "相談".data,
  "質問".data,
  "回答".data,
  "解答".data,
  "回復".data,
  "修復".data,
  "修正".data,
  "更新".data,
  "変換".data,
  "送信".data,
  "受信".data,
  "送付".data,
  "受付".data,
  "発表".data,
  "発売".data,
  "発送".data,
  "受注".data,
  "発注".data,
  "実現".data,
  "実行".data,
  "実施".data,
  "導入".data,
  "活用".data,
  "利用".data,
  "使用".data,
  "採用".data,
  "認識".data,
  "認証".data,
  "証明".data,
  "確定".data,
  "承認".data,
  "許可".data,
  "拒否".data,
  "同意".data,
  "遅刻".data,
  "早退".data,
  "欠席".data,
  "出席".data,
  "参加".data,
  "参照".data,
  "検索".data,
  "検討".data,
  "心配".data,
  "注意".data,
  "観察".data,
  "監視".data,
  "調査".data,
  "調整".data,
  "整理".data,
  "分析".data,
  "結婚".data,
  "離婚".data,
  "入学".data,
  "卒業".data,
  "入社".data,
  "退社".data,
  "就職".data,
  "転職".data,
  "引越".data,
  "引っ越し".data,
  "移動".data,
  "移転".data,
  "輸入".data,
  "輸出".data,
  "運送".data,
  "配送".data,
  "食事".data,
  "掃除".data,
  "洗濯".data,
  "料理".data,
  "散歩".data,
  "買物".data,
  "買い物".data,
  "登録".data,
  "解除".data,
  "停止".data,
  "開放".data,
  "解放".data,
  "結合".data,
  "分離".data,
  "短縮".data,
  "ダウンロード".data,
  "早退".data,
  "探索".data,
  "攻略".data,
  "クリア".data,
  "レベルアップ".data,
  "発生".data,
  "下落".data,
  "接近".data,
  "否認".data,
  "上昇".data,
  "圧迫".data,
  "再開".data,
  "改革".data,
  "議論".data,
  "増加".data,
  "懸念".data,
  "普及".data,
  "強化".data,
  "重視".data,
  "拡大".data,
  "削減".data,
  "推進".data,
  "約束".data,
  "施行".data,
  "後押し".data,
  "適用".data,
  "見直し".data,
  "難航".data,
  "合意".data,
  "期待".data,
  "本格化".data,
  "開始".data,
  "接近".data,
  "重要視".data,
  "管理".data]

/-- suffix_splitting.py SURU_FORMS -/
def SURU_FORMS : List Str :=
  ["する".data,
  "します".data,
  "した".data,
  "しました".data,
  "して".data,
  "しない".data,
  "しません".data,
  "しよう".data,
  "しましょう".data,
  "すれば".data,
  "したい".data,
  "したくない".data,
  "できる".data,
  "できます".data,
  "できない".data,
  "できません".data,
  "したら".data,
  "したとき".data,
  "してる".data,
  "している".data,
  "していた".data,
  "していました".data,
  "してから".data,
  "してしまう".data,
  "してしまった".data,
  "してしまいました".data,
  "しましたら".data,
  "すべき".data,
  "していれば".data,
  "していたら".data,
  "しておく".data,
  "しておいて".data,
  "しておいてください".data,
  "しております".data,
  "しておりました".data,
  "いたします".data,
  "いたしました".data,
  "いたす".data,
  "いたしまして".data,
  "いたしません".data,
  "させてください".data,
  "させていただく".data,
  "させていただきます".data,
  "させます".data,
  "させる".data,
  "される".data,
  "されます".data,
  "された".data,
  "されました".data,
  "されている".data,
  "されていた".data,
  "されていました".data,
  "されていない".data,
  "されていなかった".data]

/-- The merged token of `merge_compound_verbs` (the same construction appears
in all three merge patterns): concatenated surface and reading, the left
token's POS, base form and base id, left start, right end. -/
def mergeTokenPair (t u : Token) : Token :=
  { surface := t.surface ++ u.surface, reading := t.reading ++ u.reading,
    pos := t.pos, base_form := t.base_form, base_form_id := t.base_form_id,
    start := t.start, stop := u.stop }

/-- Loop of `tokenizer.py` `merge_compound_verbs`: merge a te/de-form with a
listed auxiliary, any token with a する-continuation, or a passive stem with a
ている-family continuation; otherwise pass the token through.  Each iteration
consumes at least one token, so `length` fuel reproduces the index loop. -/
def mcvGo : Nat → List Token → List Token
  | _, [] => []
  | 0, ts => ts
  | _ + 1, [t] => [t]
  | fuel + 1, t :: u :: rest =>
    if (("て".data).isSuffixOf t.surface || ("で".data).isSuffixOf t.surface)
        && TE_FORM_MERGE_PATTERNS.contains u.surface then
      mergeTokenPair t u :: mcvGo fuel rest
    else if SURU_CONTINUATION_PATTERNS.contains u.surface then
      mergeTokenPair t u :: mcvGo fuel rest
    else if (PASSIVE_STEM_ENDINGS.any fun p => p.isSuffixOf t.surface)
        && PASSIVE_MERGE_PATTERNS.contains u.surface then
      mergeTokenPair t u :: mcvGo fuel rest
    else t :: mcvGo fuel (u :: rest)

/-- `tokenizer.py` `merge_compound_verbs`. -/
def merge_compound_verbs (tokens : List Token) : List Token :=
  if tokens.length < 2 then tokens else mcvGo tokens.length tokens

/-- `sorted(MULTI_TOKEN_MERGES, key=lambda x: -len(x[0]))`: stable descending
sort by pattern length (insertion sort with a non-strict relation is stable,
like Python's timsort). -/
def sortedMultiMerges : List (List Str × Str) :=
  MULTI_TOKEN_MERGES.insertionSort fun a b => b.1.length ≤ a.1.length

/-- First pattern of `sortedMultiMerges` matching a prefix of the tokens. -/
def findMultiMerge (ts : List Token) : Option (List Str × Str) :=
  sortedMultiMerges.find? fun pm =>
    decide (pm.1.length ≤ ts.length) && (ts.take pm.1.length).map Token.surface == pm.1

/-- Loop of `apply_multi_token_merges`; `fuel` bounds the index walk (every
iteration consumes at least one token — all patterns are non-empty). -/
def amtGo : Nat → List Token → List Token
  | _, [] => []
  | 0, ts => ts
  | fuel + 1, t :: rest =>
    match findMultiMerge (t :: rest) with
    | some pm =>
      let group := (t :: rest).take pm.1.length
      { surface := pm.2, reading := group.flatMap fun tk => tk.reading,
        pos := t.pos, base_form := pm.2, base_form_id := t.base_form_id,
        start := t.start, stop := (group.getLastD t).stop } ::
      amtGo fuel ((t :: rest).drop pm.1.length)
    | none => t :: amtGo fuel rest

/-- `tokenizer.py` `apply_multi_token_merges`. -/
def apply_multi_token_merges (tokens : List Token) : List Token :=
  if tokens.length < 2 then tokens else amtGo tokens.length tokens

/-!
## Suffix splitting (`suffix_splitting.py`)
-/

/-- `suffix_splitting.py` `should_split_particle`. -/
def should_split_particle (lex : Lexicon) (word particle : Str) : Bool :=
  if word.length ≤ particle.length then false
  else if NO_SPLIT_COMPOUNDS.contains word then false
  else if MERGED_PARTICLE_COMPOUNDS.contains word then false
  else
    let base := dropLastN particle.length word
    if base.length = 1 && !(has_kanji base) then false
    else word_exists_in_dict lex base

/-- `suffix_splitting.py` `should_split_copula`: all split branches peel `だ`. -/
def should_split_copula (word : Str) : Bool × Str :=
  if word = "ようだ".data then (true, "だ".data)
  else if word = "はずだ".data then (true, "だ".data)
  else if word = "からだ".data then (true, "だ".data)
  else if ("ようだ".data).isSuffixOf word ∧ word.length > 3 ∧
      ¬ NO_SPLIT_DA_WORDS.contains word then (true, "だ".data)
  else (false, [])

/-- `suffix_splitting.py` `should_split_conditional`: disabled in the source
(himotoki keeps conditional ば merged), always `false`. -/
def should_split_conditional (_word : Str) : Bool := false

/-- `suffix_splitting.py` `should_split_explanatory_n`. -/
def should_split_explanatory_n (lex : Lexicon) (word : Str) : Bool :=
  if ¬ ("ん".data).isSuffixOf word then false
  else if NO_SPLIT_N_WORDS.contains word then false
  else if word.length < 2 then false
  else
    let base := dropLastN 1 word
    if decide (0 < base.length) &&
        (match base.getLast? with
         | some c => N_SPLIT_BASE_ENDINGS.contains [c]
         | none => false) then
      word_exists_in_dict lex base
    else false

/-- `suffix_splitting.py` `should_split_prefix_particle`: prefix particles
に, と, で, ん peel off the listed patterns when the remainder is a key. -/
def should_split_prefix_particle (lex : Lexicon) (word : Str) : Option (List Str) :=
  if ¬ PREFIX_SPLIT_PATTERNS.contains word then none
  else if ("に".data).isPrefixOf word ∧ word.length > 1 ∧
      word_exists_in_dict lex (word.drop 1) then
    some ["に".data, word.drop 1]
  else if ("と".data).isPrefixOf word ∧ word.length > 1 ∧
      word_exists_in_dict lex (word.drop 1) then
    some ["と".data, word.drop 1]
  else if ("で".data).isPrefixOf word ∧ word.length > 1 ∧
      word_exists_in_dict lex (word.drop 1) then
    some ["で".data, word.drop 1]
  else if ("ん".data).isPrefixOf word ∧ word.length > 1 ∧
      word_exists_in_dict lex (word.drop 1) then
    some ["ん".data, word.drop 1]
  else none

/-- `suffix_splitting.py` `split_internal_particles`:
`INTERNAL_SPLIT_PARTICLES` is the empty set in the source ("disabled"), so the
scan finds nothing and the function always returns `None`. -/
def split_internal_particles (_lex : Lexicon) (_word : Str) : Option (List Str) := none

/-- Helper lemma used for the termination of `split_token`: the copula split
always peels the single character `だ`. -/
theorem should_split_copula_snd {w c : Str} (h : should_split_copula w = (true, c)) :
    c = "だ".data := by
  unfold should_split_copula at h
  split_ifs at h <;> simp_all

/-- `suffix_splitting.py` `split_token`: the priority chain — explicit
compound-verb splits, prefix-particle splits, (disabled) internal splits,
rightmost particle peeling, copula peeling, (disabled) conditional ば,
explanatory ん.  Every recursive call peels at least one character, so
`surface.length` fuel reproduces the recursion exactly (fuel keeps the
definition structural and kernel-computable). -/
def splitTokenGo (lex : Lexicon) : Nat → Str → List Str
  | 0, surface => [surface]
  | fuel + 1, surface =>
  if surface.length < 2 then [surface]
  else
    match COMPOUND_VERB_SPLITS.find? fun kv => kv.1 = surface with
    | some kv => kv.2
    | none =>
    match should_split_prefix_particle lex surface with
    | some parts => parts
    | none =>
    match split_internal_particles lex surface with
    | some parts => parts
    | none =>
    match SPLIT_PARTICLES.find? fun p =>
        p.isSuffixOf surface && decide (surface.length > p.length) &&
        should_split_particle lex surface p with
    | some p => splitTokenGo lex fuel (dropLastN p.length surface) ++ [p]
    | none =>
    match should_split_copula surface with
    | (true, cop) => splitTokenGo lex fuel (dropLastN cop.length surface) ++ [cop]
    | (false, _) =>
    if should_split_conditional surface then
      splitTokenGo lex fuel (dropLastN 1 surface) ++ ["ば".data]
    else if should_split_explanatory_n lex surface then
      splitTokenGo lex fuel (dropLastN 1 surface) ++ ["ん".data]
    else [surface]

/-- `suffix_splitting.py` `split_token`. -/
def split_token (lex : Lexicon) (surface : Str) : List Str :=
  splitTokenGo lex surface.length surface

/-- Token construction for split and substituted parts (the identical loops in
`post_process_splits` and `apply_token_substitutions`): positions walk the
concatenation; the reading is the part itself; the source's
`entry.pos_name if hasattr(entry, 'pos_name') else 'unk'` always yields
`'unk'` because `WordEntry` has no `pos_name` attribute; a found entry
contributes only its `seq` as the id. -/
def tokensFromParts (lex : Lexicon) : List Str → Nat → List Token
  | [], _ => []
  | part :: rest, pos =>
    (match lex.lookup part with
     | entry :: _ =>
       { surface := part, reading := part, pos := "unk", base_form := part,
         base_form_id := entry.seq, start := pos, stop := pos + part.length }
     | [] =>
       { surface := part, reading := part, pos := "unk", base_form := part,
         base_form_id := 0, start := pos, stop := pos + part.length }) ::
    tokensFromParts lex rest (pos + part.length)

/-- First substitution of `TOKEN_SUBSTITUTIONS` (table order) whose pattern
matches a prefix of the tokens. -/
def findSubstitution (ts : List Token) : Option (List Str × List Str) :=
  TOKEN_SUBSTITUTIONS.find? fun pr =>
    decide (pr.1.length ≤ ts.length) && (ts.take pr.1.length).map Token.surface == pr.1

/-- Loop of `apply_token_substitutions` (every pattern is non-empty, so each
iteration consumes at least one token and `fuel = length` suffices). -/
def atsGo (lex : Lexicon) : Nat → List Token → List Token
  | _, [] => []
  | 0, ts => ts
  | fuel + 1, t :: rest =>
    match findSubstitution (t :: rest) with
    | some pr =>
      tokensFromParts lex pr.2 t.start ++ atsGo lex fuel ((t :: rest).drop pr.1.length)
    | none => t :: atsGo lex fuel rest

/-- `suffix_splitting.py` `apply_token_substitutions`. -/
def apply_token_substitutions (lex : Lexicon) (tokens : List Token) : List Token :=
  if tokens.isEmpty then tokens else atsGo lex tokens.length tokens

/-- Verb-stem test of the tai-merge branches: the first lookup entry with
`conj_type = 13` and a POS name starting with `v`. -/
def findVerbStemEntry (lex : Lexicon) (s : Str) : Option WordEntry :=
  (lex.lookup s).find? fun en =>
    decide (en.conj_type = 13) && (get_pos_name en.pos_id).startsWith "v"

/-- `base_seq if base_seq else seq` of the source (0 is falsy). -/
def entryBaseOrSeq (en : WordEntry) : Nat :=
  if en.base_seq ≠ 0 then en.base_seq else en.seq

/-- First `MERGE_PATTERNS` rule (list order) matching a prefix of the tokens. -/
def findMergePattern (ts : List Token) : Option (List Str × Str) :=
  MERGE_PATTERNS.find? fun pm =>
    decide (pm.1.length ≤ ts.length) && (ts.take pm.1.length).map Token.surface == pm.1

/-- Loop of `apply_merge_patterns`: verb-stem + たい/たかった/たくない merges,
suru-compound merges, te-form extensions for suru compounds, then the literal
`MERGE_PATTERNS`; otherwise pass through.  For the merged tokens the reading
is the merged surface, and the POS falls back to `vs` / `v1` / `unk` because
`WordEntry` has no `pos_name` attribute (the source's `hasattr` test). -/
def ampGo (lex : Lexicon) : Nat → List Token → List Token
  | _, [] => []
  | 0, ts => ts
  | fuel + 1, t :: rest =>
    let ts := t :: rest
    let pairMerge : Option Token :=
      match rest with
      | [] => none
      | next :: _ =>
        (if next.surface = "たい".data then
          (findVerbStemEntry lex t.surface).map fun en =>
            { surface := t.surface ++ "たい".data,
              reading := t.reading ++ "たい".data,
              pos := get_pos_name en.pos_id,
              base_form := t.surface ++ "たい".data,
              base_form_id :=
                match (lex.lookup t.surface).find? fun be => be.conj_type = 13 with
                | some be => entryBaseOrSeq be
                | none => entryBaseOrSeq en,
              start := t.start, stop := next.stop }
         else none) <|>
        (if next.surface = "たかった".data then
          (findVerbStemEntry lex t.surface).map fun en =>
            { surface := t.surface ++ "たかった".data,
              reading := t.reading ++ "たかった".data,
              pos := get_pos_name en.pos_id,
              base_form := t.surface ++ "たかった".data,
              base_form_id := entryBaseOrSeq en,
              start := t.start, stop := next.stop }
         else none) <|>
        (if next.surface = "たくない".data then
          (findVerbStemEntry lex t.surface).map fun en =>
            { surface := t.surface ++ "たくない".data,
              reading := t.reading ++ "たくない".data,
              pos := get_pos_name en.pos_id,
              base_form := t.surface ++ "たくない".data,
              base_form_id := entryBaseOrSeq en,
              start := t.start, stop := next.stop }
         else none) <|>
        (if SURU_COMPOUND_NOUNS.contains t.surface && SURU_FORMS.contains next.surface then
          let merged := t.surface ++ next.surface
          some { surface := merged, reading := merged, pos := "vs", base_form := merged,
                 base_form_id := (match lex.lookup merged with | en :: _ => en.seq | [] => 0),
                 start := t.start, stop := next.stop }
         else none) <|>
        (if ("て".data).isSuffixOf t.surface && TE_FORM_EXTENSIONS.contains next.surface &&
            ("して".data).isSuffixOf t.surface && decide (t.surface.length > 2) &&
            SURU_COMPOUND_NOUNS.contains (dropLastN 2 t.surface) then
          let merged := t.surface ++ next.surface
          some { surface := merged, reading := merged, pos := "v1", base_form := merged,
                 base_form_id := (match lex.lookup merged with | en :: _ => en.seq | [] => 0),
                 start := t.start, stop := next.stop }
         else none)
    match pairMerge with
    | some tok => tok :: ampGo lex fuel (ts.drop 2)
    | none =>
      match findMergePattern ts with
      | some pm =>
        let group := ts.take pm.1.length
        { surface := pm.2, reading := pm.2, pos := "unk", base_form := pm.2,
          base_form_id := (match lex.lookup pm.2 with | en :: _ => en.seq | [] => 0),
          start := t.start, stop := (group.getLastD t).stop } ::
        ampGo lex fuel (ts.drop pm.1.length)
      | none => t :: ampGo lex fuel rest

/-- `suffix_splitting.py` `apply_merge_patterns`. -/
def apply_merge_patterns (lex : Lexicon) (tokens : List Token) : List Token :=
  if tokens.length < 2 then tokens else ampGo lex tokens.length tokens

/-- The `while len(tokens) != prev_len` fixed-point loops of the source: apply
`f` until the length stops changing.  A merge pass either strictly shortens
the list or returns it unchanged, so `length + 1` fuel reproduces the loop. -/
def loopFix (f : List Token → List Token) : Nat → List Token → List Token
  | 0, ts => ts
  | fuel + 1, ts =>
    let t2 := f ts
    if t2.length = ts.length then t2 else loopFix f fuel t2

/-- `suffix_splitting.py` `post_process_splits`: split every token via
`split_token` (rebuilding positions and ids from the parts), apply the token
substitutions, then the merge patterns to a fixed point. -/
def post_process_splits (lex : Lexicon) (tokens : List Token) : List Token :=
  let result := tokens.flatMap fun tok =>
    let parts := split_token lex tok.surface
    if parts.length = 1 then [tok]
    else tokensFromParts lex parts tok.start
  let result := apply_token_substitutions lex result
  loopFix (apply_merge_patterns lex) (result.length + 1) result

/-!
## Facade (`tokenizer.py` `tokenize_text` / `analyze_text`, `__init__.py`)
-/

/-- The punctuation segmentation loop of `tokenize_text`: `(text, start)`
pairs for the runs between separators and for each separator itself.  One
fuel unit per index step; the top-level call passes `length + 1`, so the
`i ≥ length` exit always fires before the fuel does (the fuel-0 case repeats
the exit so the equations stay uniform). -/
def punctSegsGo (text : Str) : Nat → Nat → Nat → List (Str × Nat)
  | 0, _, current_start =>
    if current_start < text.length then
      [(sliceCP text current_start text.length, current_start)]
    else []
  | fuel + 1, i, current_start =>
    if i < text.length then
      let c := text.getD i ' '
      if PUNCTUATION_SEPARATORS.contains c then
        (if i > current_start then [(sliceCP text current_start i, current_start)] else []) ++
        [([c], i)] ++ punctSegsGo text fuel (i + 1) (i + 1)
      else punctSegsGo text fuel (i + 1) current_start
    else if current_start < text.length then
      [(sliceCP text current_start text.length, current_start)]
    else []

/-- Punctuation segmentation of `tokenize_text`. -/
def punctSegs (text : Str) : List (Str × Nat) := punctSegsGo text (text.length + 1) 0 0

/-- One-character separator strings: `seg_text in PUNCTUATION_SEPARATORS`
compares the segment against the separator characters. -/
def PUNCT_STRINGS : List Str := PUNCTUATION_SEPARATORS.map fun c => [c]

/-- Unknown-span / gap token construction of `tokenize_text`. -/
def unkToken (g : Str) (start stop : Nat) : Token :=
  { surface := g, reading := if is_kana g then as_hiragana g else g, pos := "unk",
    base_form := g, base_form_id := 0, start := start, stop := stop }

/-- Segment-to-token conversion with gap filling (`tokenize_text` inner loop):
positions are shifted by the segment start, gaps become unknown tokens. -/
def pathToTokens (segText : Str) (segStart : Nat) (path : List Segment) : List Token :=
  let step := path.foldl (fun acc seg =>
    let withGap := if seg.start > acc.2 then
        acc.1 ++ [unkToken (sliceCP segText acc.2 seg.start)
                    (segStart + acc.2) (segStart + seg.start)]
      else acc.1
    (withGap ++ [{ surface := seg.surface, reading := seg.reading, pos := seg.pos,
                   base_form := seg.base_form, base_form_id := seg.base_form_id,
                   start := segStart + seg.start, stop := segStart + seg.stop }],
     seg.stop)) (([] : List Token), 0)
  if step.2 < segText.length then
    step.1 ++ [unkToken (sliceCP segText step.2 segText.length)
                 (segStart + step.2) (segStart + segText.length)]
  else step.1

/-- Per-segment tokenization inside `tokenize_text`: punctuation becomes a
`punc` token; an empty path list becomes a single unknown token; otherwise the
best path is converted with gap filling. -/
def tokenizeSegment (lex : Lexicon) (segText : Str) (segStart : Nat) : List Token :=
  if PUNCT_STRINGS.contains segText then
    [{ surface := segText, reading := segText, pos := "punc", base_form := segText,
       base_form_id := 0, start := segStart, stop := segStart + 1 }]
  else
    match find_best_path (find_all_matches lex segText) segText.length 1 true with
    | [] => [unkToken segText segStart (segStart + segText.length)]
    | p :: _ => pathToTokens segText segStart p.1

/-- The rewriter as run by `tokenize_text` on the assembled token list: the
compound-verb merge fixed point, the multi-token merge fixed point, then the
suffix-splitting post-process (splits, substitutions, merge patterns). -/
def rewriter (lex : Lexicon) (ts : List Token) : List Token :=
  let ts1 := loopFix merge_compound_verbs (ts.length + 1) ts
  let ts2 := loopFix apply_multi_token_merges (ts1.length + 1) ts1
  post_process_splits lex ts2

/-- `tokenizer.py` `tokenize_text`: split on punctuation, tokenize each run,
then the rewriter. -/
def tokenize_text (lex : Lexicon) (text : Str) : List Token :=
  let all_tokens := (punctSegs text).flatMap fun sp => tokenizeSegment lex sp.1 sp.2
  rewriter lex all_tokens

/-- `tokenizer.py` `analyze_text`: k-best paths over the whole text, converted
to tokens directly — it runs neither the punctuation splitting, nor the
gap-token insertion, nor any rewriter pass of `tokenize_text`. -/
def analyze_text (lex : Lexicon) (text : Str) (limit : Nat) : List (List Token × ℚ) :=
  (find_best_path (find_all_matches lex text) text.length limit true).map fun ps =>
    (ps.1.map fun seg =>
      { surface := seg.surface, reading := seg.reading, pos := seg.pos,
        base_form := seg.base_form, base_form_id := seg.base_form_id,
        start := seg.start, stop := seg.stop }, ps.2)

/-- The facade's `InvalidInput` error (`ValueError` in the source). -/
inductive HError where
  | invalidInput
  deriving Repr, DecidableEq

/-- The facade's validation test: `not text or not text.strip()` — empty or
whitespace-only. -/
def invalidText (text : Str) : Bool := text.isEmpty || text.all Char.isWhitespace

/-- `himotoki_split.tokenize` (facade): validate, then tokenize.  Unicode NFC
normalisation is the identity in this embedding (none of the claims under
proof depends on composition normal forms). -/
def tokenize (lex : Lexicon) (text : Str) : Except HError (List Token) :=
  if invalidText text then .error .invalidInput
  else .ok (tokenize_text lex text)

/-- `himotoki_split.analyze` (facade): validate the text and `limit ≥ 1`,
then run `analyze_text`. -/
def analyze (lex : Lexicon) (text : Str) (limit : Int) :
    Except HError (List (List Token × ℚ)) :=
  if invalidText text then .error .invalidInput
  else if limit < 1 then .error .invalidInput
  else .ok (analyze_text lex text limit.toNat)


/-!
## Fixtures for the witnesses and counterexamples

Small concrete lexicons (the binary artifact itself is external, so concrete
instances are built with `lexOf`) and concrete tokens.
-/

/-- A dictionary record with the given seq, cost, POS id, conjugation type and
base seq (the `surface` field is left empty; no consumer reads it). -/
def mkEntry (sq : Nat) (c : Int) (pid : Nat) (ct : Nat := 0) (bs : Nat := 0) : WordEntry :=
  { surface := [], seq := sq, cost := c, pos_id := pid, conj_type := ct, base_seq := bs }

/-- A lexicon containing the JMdict words 養育費 and きちんと. -/
def lexYouikuhi : Lexicon :=
  lexOf [("養育費".data, [mkEntry 1541060 10 1]), ("きちんと".data, [mkEntry 1591970 10 50])]

/-- A lexicon whose only key is ようだ. -/
def lexYouda : Lexicon := lexOf [("ようだ".data, [mkEntry 1013110 10 73])]

/-- A lexicon whose only key is た. -/
def lexTa : Lexicon := lexOf [("た".data, [mkEntry 2654250 10 1])]

/-- A lexicon whose only key is よう, with a noun entry. -/
def lexYou : Lexicon := lexOf [("よう".data, [mkEntry 1605840 10 1])]

/-- A single-character noun entry whose surface は lies in
`SINGLE_CHAR_PARTICLES` (e.g. a kana-only noun reading). -/
def nounHaEntry : WordEntry := mkEntry 999 0 1

/-- Unknown tokens いて, くれ, ない as the path selector would emit them. -/
def tokIte : Token := unkToken "いて".data 0 2

/-- See `tokIte`. -/
def tokKure : Token := unkToken "くれ".data 2 4

/-- See `tokIte`. -/
def tokNai : Token := unkToken "ない".data 4 6

/-!
## The claims
-/

/-- C1: the claimed token-sequence invariant — adjacent spans covering
`[0, |text|)` and surface fidelity `text[t.start:t.end] = t.surface`,
including after the rewriter's merge, split and substitution passes — is the
spec's and the code's evident intent, but the substitution rule
`('養育費', 'きちんと') → ['養育費', 'は', 'きちんと']` of
`TOKEN_SUBSTITUTIONS` (a workaround for one mis-segmented sentence) inserts a
は that is not in the text.  On the 7-code-point input 養育費きちんと, with a
lexicon holding the two JMdict words, `tokenize_text` emits a token は whose
slice of the text reads き, and a final offset 8 beyond the input. -/
theorem C1_surface_fidelity_code_bug :
    (tokenize_text lexYouikuhi "養育費きちんと".data).map
        (fun t => (t.surface, t.start, t.stop)) =
      [("養育費".data, 0, 3), ("は".data, 3, 4), ("きちんと".data, 4, 8)] ∧
    sliceCP "養育費きちんと".data 3 4 ≠ "は".data ∧
    ("養育費きちんと".data).length = 7 :=
  ⟨by decide, by decide, by decide⟩

/-- C2 counterexample: ようだ is a non-empty punctuation-free input, every
lookup of the empty lexicon is empty, yet `tokenize_text` returns two tokens,
not one — the copula rule of `split_token` fires without consulting the
lexicon.  (Both tokens do carry `pos = "unk"` and `base_form_id = 0`.) -/
theorem C2_counterexample_youda :
    (tokenize_text emptyLex "ようだ".data).map
        (fun t => (t.surface, t.pos, t.base_form_id, t.start, t.stop)) =
      [("よう".data, "unk", 0, 0, 2), ("だ".data, "unk", 0, 2, 3)] ∧
    (tokenize_text emptyLex "ようだ".data).length ≠ 1 :=
  ⟨by decide, by decide⟩

/-- C3: the facade's `tokenize` fails exactly on empty or whitespace-only
text, `analyze` fails exactly on such text or `limit < 1`, and in each case
the failure is decided by the inputs alone — the result is the same for every
lexicon, so the error precedes any lexicon lookup; no other input fails. -/
theorem C3_invalid_input_iff (lex lex2 : Lexicon) (text : Str) (limit : Int) :
    (tokenize lex text = .error .invalidInput ↔
      (text = [] ∨ ∀ c ∈ text, c.isWhitespace)) ∧
    (analyze lex text limit = .error .invalidInput ↔
      ((text = [] ∨ ∀ c ∈ text, c.isWhitespace) ∨ limit < 1)) ∧
    ((text = [] ∨ ∀ c ∈ text, c.isWhitespace) → tokenize lex text = tokenize lex2 text) ∧
    (((text = [] ∨ ∀ c ∈ text, c.isWhitespace) ∨ limit < 1) →
      analyze lex text limit = analyze lex2 text limit) := by
  have hiff : invalidText text = true ↔ (text = [] ∨ ∀ c ∈ text, c.isWhitespace) := by
    simp [invalidText, List.isEmpty_iff, List.all_eq_true]
  constructor
  · unfold tokenize
    split_ifs with h
    · simp [hiff.mp h]
    · simp only [reduceCtorEq, false_iff]
      intro hc
      exact h (hiff.mpr hc)
  constructor
  · unfold analyze
    split_ifs with h1 h2
    · simp [hiff.mp h1]
    · simp [h2]
    · simp only [reduceCtorEq, false_iff]
      intro hc
      rcases hc with hc | hc
      · exact h1 (hiff.mpr hc)
      · exact h2 hc
  constructor
  · intro hc
    unfold tokenize
    simp [hiff.mpr hc]
  · intro hc
    unfold analyze
    by_cases h1 : invalidText text = true
    · simp [h1]
    · rcases hc with hc | hc
      · exact absurd (hiff.mpr hc) h1
      · simp [h1, hc]

/-- C3 witness: the theorem applied at concrete inputs — a space-only text
errors, `limit = 0` errors, and the error is lexicon-independent. -/
theorem C3_witness :
    tokenize emptyLex " ".data = .error .invalidInput ∧
    analyze emptyLex "あ".data 0 = .error .invalidInput ∧
    tokenize emptyLex " ".data = tokenize lexYouda " ".data := by
  refine ⟨?_, ?_, ?_⟩
  · exact (C3_invalid_input_iff emptyLex emptyLex " ".data 1).1.mpr (by decide)
  · exact (C3_invalid_input_iff emptyLex emptyLex "あ".data 0).2.1.mpr (Or.inr (by decide))
  · exact (C3_invalid_input_iff emptyLex lexYouda " ".data 1).2.2.1 (by decide)

/-- C4 counterexample: on the valid input ようだ with a lexicon whose only key
is ようだ and `k = 1`, `analyze`'s first element is the single token ようだ
(the raw best path), while `tokenize` returns よう|だ — `analyze_text` runs
neither the rewriter nor punctuation handling, so the first element's tokens
differ from `tokenize`'s. -/
theorem C4_counterexample_first_element :
    ((analyze lexYouda "ようだ".data 1).toOption.map
        fun rs => rs.map fun p => p.1.map Token.surface) =
      some [["ようだ".data]] ∧
    ((tokenize lexYouda "ようだ".data).toOption.map fun ts => ts.map Token.surface) =
      some ["よう".data, "だ".data] ∧
    (["ようだ".data] : List Str) ≠ ["よう".data, "だ".data] :=
  ⟨by decide, by decide, by decide⟩

/-- C5 counterexample: a single-character entry whose surface は lies in
`SINGLE_CHAR_PARTICLES` but whose POS is not particle (a noun record) scores
`12 - cost·0.1 = 12`, not the general path minus 30 (which would be 4/5) —
so not every single-character non-particle entry receives the −30 penalty. -/
theorem C5_counterexample_single_char_particle_surface :
    calculate_segment_score emptyLex "は".data nounHaEntry = 12 ∧
    segment_base_score "は".data nounHaEntry *
        (1 + get_length_coeff (mora_length "は".data)
              (segment_coeff_type "は".data nounHaEntry) * (1 / 10)) +
        calculate_split_score_adjustment "は".data nounHaEntry.seq - 30 = 4 / 5 ∧
    (12 : ℚ) ≠ 4 / 5 := by
  have hk : has_kanji "は".data = false := by decide
  have hh : is_hiragana "は".data = true := by decide
  have hkat : is_katakana "は".data = false := by decide
  have hm : mora_length "は".data = 1 := by decide
  have hscp : SINGLE_CHAR_PARTICLES.contains "は".data = true := by decide
  have hvc : VALID_COMPOUND_WORDS.contains "は".data = false := by decide
  have hp : PARTICLE_POS_IDS.contains (1 : Nat) = false := by decide
  have hpr : PRONOUN_POS_IDS.contains (1 : Nat) = false := by decide
  have hss : should_split "は".data 999 = false := by decide
  refine ⟨?_, ?_, by norm_num⟩
  · simp only [calculate_segment_score, nounHaEntry, mkEntry, hscp, hp,
      List.length_cons, List.length_nil]
    norm_num
  · have hct : segment_coeff_type "は".data nounHaEntry = "weak" := by rfl
    have hgc : get_length_coeff 1 "weak" = 1 := by rfl
    have hbs : segment_base_score "は".data nounHaEntry = 28 := by
      simp only [segment_base_score, nounHaEntry, mkEntry, hk, hp, hpr]
      norm_num
    have hadj : calculate_split_score_adjustment "は".data nounHaEntry.seq = 0 := by
      simp [calculate_split_score_adjustment, nounHaEntry, mkEntry, hss]
    rw [hbs, hct, hm, hgc, hadj]
    norm_num

/-- C6 counterexample: in かった the position 2 (the character た, a plain
hiragana — not a small-kana modifier nor the long-vowel sign) is sticky
because it follows the sokuon, and `find_all_matches` therefore never
enumerates a span starting there: with a lexicon containing た the lattice is
empty, although the claim says a word may start immediately after a sokuon. -/
theorem C6_counterexample_sokuon_start :
    2 ∈ find_sticky_positions "かった".data ∧
    get_char_class (("かった".data).getD 2 ' ') = "hiragana" ∧
    lexTa.lookup "た".data ≠ [] ∧
    find_all_matches lexTa "かった".data = [] :=
  ⟨by decide, by decide, by decide, by decide⟩

/-- C7 counterexample: splitting the token ようだ with a lexicon holding a
noun entry for よう produces a よう token with `pos = "unk"` (the source reads
the non-existent `pos_name` attribute of `WordEntry` behind a `hasattr` guard,
so the lexicon's POS is never taken), although the lexicon entry's POS is `n`;
only the entry's `seq` is taken, as the `base_form_id`. -/
theorem C7_counterexample_split_pos :
    (post_process_splits lexYou [unkToken "ようだ".data 0 3]).map
        (fun t => (t.surface, t.pos, t.start, t.stop, t.base_form_id)) =
      [("よう".data, "unk", 0, 2, 1605840), ("だ".data, "unk", 2, 3, 0)] ∧
    (lexYou.lookup "よう".data).map (fun en => get_pos_name en.pos_id) = ["n"] ∧
    ("unk" : String) ≠ "n" :=
  ⟨by decide, by decide, by decide⟩

/-- C8 counterexample: the rewriter is not idempotent.  From いて|くれ|ない
the rewriter produces いて|くれない (the multi-token rule くれ+ない fires
after the compound-verb pass has already run); a second application then
merges いて+くれない through the compound-verb pass.  So there is an output of
the rewriter that the rewriter changes. -/
theorem C8_counterexample_iterate :
    (rewriter emptyLex [tokIte, tokKure, tokNai]).map Token.surface =
      ["いて".data, "くれない".data] ∧
    (rewriter emptyLex (rewriter emptyLex [tokIte, tokKure, tokNai])).map Token.surface =
      ["いてくれない".data] ∧
    rewriter emptyLex (rewriter emptyLex [tokIte, tokKure, tokNai]) ≠
      rewriter emptyLex [tokIte, tokKure, tokNai] :=
  ⟨by decide, by decide, by decide⟩

/-- C9 counterexample: the kanji form of 100000 is 十万, but
`parse_number` reads it as 10010 — `parse_kanji_number` folds the 十 group
into the result before 万 arrives, so the 万-multiplier is lost whenever it
needs 十/百/千; the round-trip fails at n = 100000. -/
theorem C9_counterexample_juuman :
    number_to_kanji 100000 = "十万".data ∧
    parse_number "十万".data = some 10010 ∧
    (some 10010 : Option Nat) ≠ some 100000 :=
  ⟨by decide, by decide, by decide⟩

/-- A pass that leaves a token list unchanged is left unchanged by its
`while`-style fixed-point loop. -/
theorem loopFix_fixed (f : List Token → List Token) (ts : List Token)
    (hf : f ts = ts) (fuel : Nat) : loopFix f (fuel + 1) ts = ts := by
  simp [loopFix, hf]

/-- C8 (amended): the rewriter is idempotent on token sequences that each of
its passes already leaves unchanged.  (An already-rewritten sequence need not
be such a fixed point — see the counterexample.) -/
theorem C8_rewriter_idempotent_on_pass_fixed_points (lex : Lexicon) (ts : List Token)
    (h1 : merge_compound_verbs ts = ts)
    (h2 : apply_multi_token_merges ts = ts)
    (h3 : post_process_splits lex ts = ts) :
    rewriter lex ts = ts := by
  unfold rewriter
  simp only [loopFix_fixed _ _ h1, loopFix_fixed _ _ h2, h3]

/-- C8 witness: the theorem applied to a concrete pass-fixed sequence. -/
theorem C8_witness : rewriter emptyLex [tokIte] = [tokIte] :=
  C8_rewriter_idempotent_on_pass_fixed_points emptyLex [tokIte]
    (by decide) (by decide) (by decide)

/-- C5 (amended): the coefficient is looked up by mora length and extrapolated
as `3·moras²` beyond the array; a particle-POS entry is overridden to exactly
`15 − cost·0.1` plus `5·len²` for multi-character particles; and a
single-character non-particle entry whose surface is not one of the
single-character particle strings scores the general path — the additive base
scaled by `(1 + coeff·0.1)` plus the conjugation / custom-compound /
known-compound / split adjustments — minus 30. -/
theorem C5_score_formulas (lex : Lexicon) (surface : Str) (e : WordEntry)
    (m : Nat) (t : String) :
    ((coeffSequence t).length ≤ m → get_length_coeff m t = ((m * m * 3 : Nat) : ℚ)) ∧
    (m < (coeffSequence t).length → get_length_coeff m t = (coeffSequence t).getD m 0) ∧
    (e.pos_id = 82 →
      calculate_segment_score lex surface e =
        (15 - (e.cost : ℚ) * (1 / 10)) +
          (if surface.length > 1
           then ((surface.length * surface.length * 5 : Nat) : ℚ) else 0)) ∧
    (surface.length = 1 → e.pos_id ≠ 82 → SINGLE_CHAR_PARTICLES.contains surface = false →
      calculate_segment_score lex surface e =
        segment_base_score surface e *
            (1 + get_length_coeff (mora_length surface) (segment_coeff_type surface e) *
              (1 / 10)) +
          (if e.conj_type > 0 then
            (if e.conj_type = 4 ∧ ("ば".data).isSuffixOf surface then 55 else 15) else 0) +
          (if e.cost = 5 ∧ surface.length ≥ 3 then 25 else 0) +
          (if VALID_COMPOUND_WORDS.contains surface then 40 else 0) +
          calculate_split_score_adjustment surface e.seq - 30) := by
  refine ⟨?_, ?_, ?_, ?_⟩
  · intro h
    unfold get_length_coeff
    rw [if_neg (by omega)]
  · intro h
    unfold get_length_coeff
    rw [if_pos h]
  · intro h
    have hprt : PARTICLE_POS_IDS.contains e.pos_id = true := by
      simp [PARTICLE_POS_IDS, h]
    unfold calculate_segment_score
    simp only [hprt, if_true]
  · intro hlen hpos hscp
    have hprt : PARTICLE_POS_IDS.contains e.pos_id = false := by
      simp only [PARTICLE_POS_IDS, List.contains_cons, List.contains_nil,
        Bool.or_false, beq_eq_false_iff_ne, ne_eq]
      omega
    have hlen2 : ¬ (surface.length > 2) := by omega
    unfold calculate_segment_score
    simp only [hprt, hscp, hlen, Bool.false_eq_true, if_false, and_true, and_false,
      Bool.and_eq_true, decide_eq_true_eq, gt_iff_lt]
    split_ifs <;> simp_all <;> ring

/-- A particle record (POS id 82). -/
def prtEntry : WordEntry := mkEntry 2028980 10 82

/-- A single-character kanji noun-ish record (POS id 40) whose surface 滝 is
not among the single-character particle strings. -/
def takiEntry : WordEntry := mkEntry 777 50 40

/-- C5 witness: the theorem applied at concrete inputs — extrapolated and
in-array coefficients, a two-character particle, and a single-character
non-particle entry. -/
theorem C5_witness :
    get_length_coeff 12 "strong" = ((12 * 12 * 3 : Nat) : ℚ) ∧
    get_length_coeff 2 "tail" = (coeffSequence "tail").getD 2 0 ∧
    calculate_segment_score emptyLex "から".data prtEntry =
      (15 - (prtEntry.cost : ℚ) * (1 / 10)) +
        (if ("から".data).length > 1
         then ((("から".data).length * ("から".data).length * 5 : Nat) : ℚ) else 0) ∧
    calculate_segment_score emptyLex "滝".data takiEntry =
      segment_base_score "滝".data takiEntry *
          (1 + get_length_coeff (mora_length "滝".data)
                (segment_coeff_type "滝".data takiEntry) * (1 / 10)) +
        (if takiEntry.conj_type > 0 then
          (if takiEntry.conj_type = 4 ∧ ("ば".data).isSuffixOf "滝".data then 55 else 15)
         else 0) +
        (if takiEntry.cost = 5 ∧ ("滝".data).length ≥ 3 then 25 else 0) +
        (if VALID_COMPOUND_WORDS.contains "滝".data then 40 else 0) +
        calculate_split_score_adjustment "滝".data takiEntry.seq - 30 :=
  ⟨(C5_score_formulas emptyLex "から".data prtEntry 12 "strong").1 (by decide),
   (C5_score_formulas emptyLex "から".data prtEntry 2 "tail").2.1 (by decide),
   (C5_score_formulas emptyLex "から".data prtEntry 2 "tail").2.2.1 rfl,
   (C5_score_formulas emptyLex "滝".data takiEntry 2 "tail").2.2.2
     (by decide) (by decide) (by decide)⟩

/-- `find_best_path` returns either nothing or a stable score-descending sort
of the backtracked results, truncated to `limit` and projected to
(path, score) pairs. -/
theorem find_best_path_cases (spans : List ((Nat × Nat) × List Segment))
    (n limit : Nat) (ag : Bool) :
    find_best_path spans n limit ag = [] ∨
    ∃ results : List (List Segment × ℚ × List (Nat × Nat)),
      find_best_path spans n limit ag =
        ((results.insertionSort fun a b => b.2.1 ≤ a.2.1).take limit).map
          fun r => (r.1, r.2.1) := by
  unfold find_best_path
  split
  · exact .inl rfl
  · dsimp only
    split
    · exact .inl rfl
    · exact .inr ⟨_, rfl⟩

/-- The selector's output has at most `limit` paths, in non-increasing score
order (insertion sort with a non-strict total relation). -/
theorem find_best_path_sorted (spans : List ((Nat × Nat) × List Segment))
    (n limit : Nat) (ag : Bool) :
    (find_best_path spans n limit ag).length ≤ limit ∧
    List.Pairwise (fun a b => b.2 ≤ a.2) (find_best_path spans n limit ag) := by
  rcases find_best_path_cases spans n limit ag with h | ⟨results, h⟩
  · rw [h]; exact ⟨by simp, by simp⟩
  · rw [h]
    constructor
    · simp only [List.length_map, List.length_take]
      omega
    · letI : IsTotal (List Segment × ℚ × List (Nat × Nat)) (fun a b => b.2.1 ≤ a.2.1) :=
        ⟨fun a b => le_total b.2.1 a.2.1⟩
      letI : IsTrans (List Segment × ℚ × List (Nat × Nat)) (fun a b => b.2.1 ≤ a.2.1) :=
        ⟨fun _ _ _ hab hbc => le_trans hbc hab⟩
      have hs := List.sorted_insertionSort (fun a b => b.2.1 ≤ a.2.1) results
      refine List.pairwise_map.mpr ?_
      exact (hs.sublist (List.take_sublist limit _)).imp fun hab => hab

/-- C4 (amended): `analyze_text` returns at most `k` (tokens, score) pairs and
their scores are in non-increasing order.  (The first element is the
selector's top raw path; `analyze_text` runs neither the punctuation
splitting, the gap-token insertion, nor the rewriter of `tokenize_text`, so
it need not agree with `tokenize` — see the counterexample.) -/
theorem C4_kbest_monotonic (lex : Lexicon) (text : Str) (k : Nat) :
    (analyze_text lex text k).length ≤ k ∧
    List.Pairwise (fun a b => b.2 ≤ a.2) (analyze_text lex text k) := by
  obtain ⟨hlen, hpair⟩ :=
    find_best_path_sorted (find_all_matches lex text) text.length k true
  constructor
  · simpa [analyze_text] using hlen
  · refine List.pairwise_map.mpr ?_
    exact hpair.imp fun hab => hab

/-- Relation between a token list and the result of a merge pass: every
output token is an input token passed through unchanged, or replaces a
consecutive group of at least two input tokens and carries the concatenated
surface, the concatenated reading, the first token's POS and start, and the
last token's end. -/
inductive MergedFrom : List Token → List Token → Prop
  | nil : MergedFrom [] []
  | keep {ts us : List Token} (t : Token) :
      MergedFrom ts us → MergedFrom (t :: ts) (t :: us)
  | merge {ts us : List Token} (a : Token) (g : List Token) (m : Token)
      (hg : g ≠ [])
      (hsurf : m.surface = (a :: g).flatMap Token.surface)
      (hread : m.reading = (a :: g).flatMap Token.reading)
      (hpos : m.pos = a.pos) (hstart : m.start = a.start)
      (hstop : m.stop = (g.getLastD a).stop) :
      MergedFrom ts us → MergedFrom (a :: (g ++ ts)) (m :: us)

/-- `MergedFrom` is reflexive: a pass that changes nothing is covered by the
pass-through constructor. -/
theorem mergedFrom_refl (ts : List Token) : MergedFrom ts ts := by
  induction ts with
  | nil => exact .nil
  | cons t rest ih => exact .keep t ih

/-- Packaging of the `merge` constructor for a group given as `take L` of the
remaining tokens. -/
theorem mergedFrom_take_merge (t : Token) (rest : List Token) (m : Token) (L : Nat)
    (h2 : 2 ≤ L) (hlen : L ≤ (t :: rest).length)
    (hsurf : m.surface = ((t :: rest).take L).flatMap Token.surface)
    (hread : m.reading = ((t :: rest).take L).flatMap Token.reading)
    (hpos : m.pos = t.pos) (hstart : m.start = t.start)
    (hstop : m.stop = (((t :: rest).take L).getLastD t).stop)
    {us : List Token} (htail : MergedFrom ((t :: rest).drop L) us) :
    MergedFrom (t :: rest) (m :: us) := by
  obtain ⟨L', rfl⟩ : ∃ L', L = L' + 1 := ⟨L - 1, by omega⟩
  have hlen' : L' ≤ rest.length := by
    simp only [List.length_cons] at hlen
    omega
  have hg : rest.take L' ≠ [] := by
    have hL : (rest.take L').length = L' := by
      rw [List.length_take]
      omega
    intro hnil
    rw [hnil] at hL
    simp only [List.length_nil] at hL
    omega
  rw [List.take_succ_cons] at hsurf hread hstop
  rw [List.getLastD_cons] at hstop
  rw [List.drop_succ_cons] at htail
  have key := MergedFrom.merge t (rest.take L') m hg hsurf hread hpos hstart hstop htail
  rwa [List.take_append_drop] at key

/-- Concatenating a projected list of strings is the same as flat-mapping the
projection. -/
theorem flatMap_map_strings (f : Token → Str) (xs : List Token) :
    (xs.map f).flatMap (fun s => s) = xs.flatMap f := by
  induction xs <;> simp_all

/-- Every `MULTI_TOKEN_MERGES` rule has a pattern of at least two surfaces and
a merged text equal to the pattern's concatenation. -/
theorem multiMerges_wf :
    ∀ pm ∈ MULTI_TOKEN_MERGES, 2 ≤ pm.1.length ∧ pm.2 = pm.1.flatMap (fun s => s) := by
  decide

/-- The compound-verb merge loop only passes tokens through or merges
adjacent pairs with concatenated surfaces and readings. -/
theorem mergedFrom_mcvGo (fuel : Nat) : ∀ ts : List Token, MergedFrom ts (mcvGo fuel ts) := by
  induction fuel with
  | zero =>
    intro ts
    cases ts with
    | nil => exact .nil
    | cons t rest => exact mergedFrom_refl _
  | succ fuel ih =>
    intro ts
    match ts with
    | [] => exact .nil
    | [t] => exact .keep t .nil
    | t :: u :: rest =>
      simp only [mcvGo]
      split_ifs with h1 h2 h3
      · refine mergedFrom_take_merge t (u :: rest) _ 2 le_rfl (by simp) ?_ ?_ ?_ ?_ ?_ (ih rest)
        · simp [mergeTokenPair]
        · simp [mergeTokenPair]
        · rfl
        · rfl
        · simp [mergeTokenPair]
      · refine mergedFrom_take_merge t (u :: rest) _ 2 le_rfl (by simp) ?_ ?_ ?_ ?_ ?_ (ih rest)
        · simp [mergeTokenPair]
        · simp [mergeTokenPair]
        · rfl
        · rfl
        · simp [mergeTokenPair]
      · refine mergedFrom_take_merge t (u :: rest) _ 2 le_rfl (by simp) ?_ ?_ ?_ ?_ ?_ (ih rest)
        · simp [mergeTokenPair]
        · simp [mergeTokenPair]
        · rfl
        · rfl
        · simp [mergeTokenPair]
      · exact .keep t (ih (u :: rest))

/-- The multi-token literal merge loop only passes tokens through or replaces
a matched group by one token with the concatenated surface and reading. -/
theorem mergedFrom_amtGo (fuel : Nat) : ∀ ts : List Token, MergedFrom ts (amtGo fuel ts) := by
  induction fuel with
  | zero =>
    intro ts
    cases ts with
    | nil => exact .nil
    | cons t rest => exact mergedFrom_refl _
  | succ fuel ih =>
    intro ts
    match ts with
    | [] => exact .nil
    | t :: rest =>
      simp only [amtGo]
      cases hfind : findMultiMerge (t :: rest) with
      | none => exact .keep t (ih rest)
      | some pm =>
        unfold findMultiMerge at hfind
        have hmem : pm ∈ sortedMultiMerges := List.mem_of_find?_eq_some hfind
        have hpred := List.find?_some hfind
        simp only [Bool.and_eq_true, decide_eq_true_eq, beq_iff_eq] at hpred
        obtain ⟨hlen, hsurfeq⟩ := hpred
        have hmem2 : pm ∈ MULTI_TOKEN_MERGES :=
          (List.perm_insertionSort _ MULTI_TOKEN_MERGES).mem_iff.mp hmem
        obtain ⟨h2, hconcat⟩ := multiMerges_wf pm hmem2
        refine mergedFrom_take_merge t rest _ pm.1.length h2 hlen ?_ ?_ ?_ ?_ ?_ (ih _)
        · show pm.2 = ((t :: rest).take pm.1.length).flatMap Token.surface
          rw [hconcat]
          conv_lhs => rw [← hsurfeq]
          rw [flatMap_map_strings]
        · rfl
        · rfl
        · rfl
        · rfl

/-- C10: the two merge passes of the tokenizer preserve the underlying text —
every produced token either is an input token unchanged, or replaces a
consecutive group of input tokens and has the concatenation of their surfaces
as its surface, the first token's start and the last token's end (readings are
concatenated and the POS comes from the first token as well). -/
theorem C10_merge_passes_preserve_text (ts : List Token) :
    MergedFrom ts (merge_compound_verbs ts) ∧ MergedFrom ts (apply_multi_token_merges ts) := by
  constructor
  · unfold merge_compound_verbs
    split
    · exact mergedFrom_refl ts
    · exact mergedFrom_mcvGo ts.length ts
  · unfold apply_multi_token_merges
    split
    · exact mergedFrom_refl ts
    · exact mergedFrom_amtGo ts.length ts

/-- Specification of the token construction shared by `post_process_splits`
and `apply_token_substitutions`: the produced tokens carry the parts as
surfaces, walk the concatenation from the region start, use the part itself
as reading and base form, always POS `unk`, and take only the `seq` of the
first lexicon record of the part (0 when unknown). -/
theorem tokensFromParts_spec (lex : Lexicon) :
    ∀ (parts : List Str) (startPos : Nat),
      ((tokensFromParts lex parts startPos).map Token.surface = parts) ∧
      (∀ tk0, (tokensFromParts lex parts startPos).head? = some tk0 →
        tk0.start = startPos) ∧
      List.Chain' (fun a b => b.start = a.stop) (tokensFromParts lex parts startPos) ∧
      (∀ tk ∈ tokensFromParts lex parts startPos,
        tk.reading = tk.surface ∧ tk.pos = "unk" ∧ tk.base_form = tk.surface ∧
        tk.stop = tk.start + tk.surface.length ∧
        tk.base_form_id = (match lex.lookup tk.surface with
                           | entry :: _ => entry.seq
                           | [] => 0)) := by
  intro parts
  induction parts with
  | nil =>
    intro startPos
    refine ⟨rfl, ?_, ?_, ?_⟩ <;> simp [tokensFromParts]
  | cons part rest ih =>
    intro startPos
    obtain ⟨ih1, ih2, ih3, ih4⟩ := ih (startPos + part.length)
    cases hl : lex.lookup part with
    | nil =>
      simp only [tokensFromParts, hl]
      refine ⟨by simp [ih1], ?_, ?_, ?_⟩
      · intro tk0 h0
        simp only [List.head?_cons, Option.some.injEq] at h0
        rw [← h0]
      · refine List.chain'_cons'.mpr ⟨?_, ih3⟩
        intro b hb
        exact ih2 b hb
      · intro tk htk
        rcases List.mem_cons.mp htk with h | h
        · subst h
          refine ⟨rfl, rfl, rfl, rfl, ?_⟩
          show 0 = _
          rw [hl]
        · exact ih4 tk h
    | cons entry es =>
      simp only [tokensFromParts, hl]
      refine ⟨by simp [ih1], ?_, ?_, ?_⟩
      · intro tk0 h0
        simp only [List.head?_cons, Option.some.injEq] at h0
        rw [← h0]
      · refine List.chain'_cons'.mpr ⟨?_, ih3⟩
        intro b hb
        exact ih2 b hb
      · intro tk htk
        rcases List.mem_cons.mp htk with h | h
        · subst h
          refine ⟨rfl, rfl, rfl, rfl, ?_⟩
          show entry.seq = _
          rw [hl]
        · exact ih4 tk h

/-- C7 (amended): tokens newly created by the rewriter's split and
substitution stages have offsets recomputed to walk the span of the split
region, their reading and base form are the new surface itself (the lexicon
is never consulted for readings), their POS is always `unk` (the source's
`hasattr(entry, 'pos_name')` guard never holds for `WordEntry`), and the
lexicon record of the new surface contributes only its `seq` as the id;
merged tokens instead concatenate the replaced tokens' surfaces and readings
and inherit the left token's POS and start and the right token's end. -/
theorem C7_rewriter_recompute (lex : Lexicon) (parts : List Str) (startPos : Nat) :
    ((tokensFromParts lex parts startPos).map Token.surface = parts) ∧
    (∀ tk0, (tokensFromParts lex parts startPos).head? = some tk0 →
      tk0.start = startPos) ∧
    List.Chain' (fun a b => b.start = a.stop) (tokensFromParts lex parts startPos) ∧
    (∀ tk ∈ tokensFromParts lex parts startPos,
      tk.reading = tk.surface ∧ tk.pos = "unk" ∧ tk.base_form = tk.surface ∧
      tk.stop = tk.start + tk.surface.length ∧
      tk.base_form_id = (match lex.lookup tk.surface with
                         | entry :: _ => entry.seq
                         | [] => 0)) ∧
    (∀ ts : List Token, MergedFrom ts (merge_compound_verbs ts)) := by
  obtain ⟨h1, h2, h3, h4⟩ := tokensFromParts_spec lex parts startPos
  refine ⟨h1, h2, h3, h4, ?_⟩
  intro ts
  unfold merge_compound_verbs
  split
  · exact mergedFrom_refl ts
  · exact mergedFrom_mcvGo ts.length ts

/-- The token the split stage builds for a part found in the lexicon. -/
def youdaTok : Token :=
  { surface := "ようだ".data, reading := "ようだ".data, pos := "unk",
    base_form := "ようだ".data, base_form_id := 1013110, start := 5, stop := 8 }

/-- The token the split stage builds for a part absent from the lexicon. -/
def neTok : Token :=
  { surface := "ね".data, reading := "ね".data, pos := "unk",
    base_form := "ね".data, base_form_id := 0, start := 8, stop := 9 }

/-- C7 witness: the theorem applied to the parts ようだ + ね at region start 5
against the lexicon that knows ようだ (seq 1013110). -/
theorem C7_witness :
    (tokensFromParts lexYouda ["ようだ".data, "ね".data] 5).head? = some youdaTok ∧
    youdaTok.start = 5 ∧
    neTok ∈ tokensFromParts lexYouda ["ようだ".data, "ね".data] 5 ∧
    (neTok.reading = neTok.surface ∧ neTok.pos = "unk" ∧
     neTok.base_form = neTok.surface ∧
     neTok.stop = neTok.start + neTok.surface.length ∧
     neTok.base_form_id = (match lexYouda.lookup neTok.surface with
                           | entry :: _ => entry.seq
                           | [] => 0)) :=
  ⟨by decide,
   (C7_rewriter_recompute lexYouda ["ようだ".data, "ね".data] 5).2.1 youdaTok (by decide),
   by decide,
   (C7_rewriter_recompute lexYouda ["ようだ".data, "ね".data] 5).2.2.2.1 neTok (by decide)⟩

/-- With no separator character in the text, the segmentation loop emits just
the remaining run (when any characters remain past the run start). -/
theorem punctSegsGo_no_punct (text : Str)
    (h : ∀ c ∈ text, PUNCTUATION_SEPARATORS.contains c = false) :
    ∀ (fuel i cs : Nat), text.length ≤ i + fuel →
      punctSegsGo text fuel i cs =
        if cs < text.length then [(sliceCP text cs text.length, cs)] else [] := by
  intro fuel
  induction fuel with
  | zero => intro i cs hle; rfl
  | succ fuel ih =>
    intro i cs hle
    rw [punctSegsGo]
    by_cases hi : i < text.length
    · rw [if_pos hi]
      have hc : text.getD i ' ' ∈ text := by
        rw [List.getD_eq_getElem?_getD, List.getElem?_eq_getElem hi]
        simp
      simp only [h _ hc, Bool.false_eq_true, if_false]
      exact ih (i + 1) cs (by omega)
    · rw [if_neg hi]

/-- A non-empty text with no separator characters is one run starting at 0. -/
theorem punctSegs_no_punct (text : Str) (h1 : text ≠ [])
    (h2 : ∀ c ∈ text, PUNCTUATION_SEPARATORS.contains c = false) :
    punctSegs text = [(text, 0)] := by
  unfold punctSegs
  rw [punctSegsGo_no_punct text h2 (text.length + 1) 0 0 (by omega)]
  rw [if_pos (List.length_pos.mpr h1)]
  simp [sliceCP]

/-- When the prefix test never holds, the end scan finds nothing. -/
theorem scanEnds_no_pref (lex : Lexicon) (text : Str) (sticky : List Nat) (start : Nat)
    (h : ∀ s : Str, lex.hasPref s = false) :
    ∀ ends : List Nat, scanEnds lex text sticky start ends = [] := by
  intro ends
  induction ends with
  | nil => rfl
  | cons e rest ih =>
    rw [scanEnds]
    split
    · exact ih
    · simp [h]

/-- When the prefix test never holds, the lattice is empty. -/
theorem find_all_matches_no_pref (lex : Lexicon) (text : Str)
    (h : ∀ s : Str, lex.hasPref s = false) :
    find_all_matches lex text = [] := by
  unfold find_all_matches
  dsimp only
  rw [List.flatMap_eq_nil_iff]
  intro start hstart
  split
  · rfl
  · exact scanEnds_no_pref lex text _ start h _

/-- The selector on an empty lattice returns nothing. -/
theorem find_best_path_nil (n limit : Nat) (ag : Bool) :
    find_best_path [] n limit ag = [] := rfl

/-- A punctuation-free segment with no lexicon prefixes becomes one unknown
token. -/
theorem tokenizeSegment_unknown (lex : Lexicon) (text : Str) (h1 : text ≠ [])
    (h2 : ∀ c ∈ text, PUNCTUATION_SEPARATORS.contains c = false)
    (h4 : ∀ s : Str, lex.hasPref s = false) :
    tokenizeSegment lex text 0 = [unkToken text 0 text.length] := by
  unfold tokenizeSegment
  have hpunct : PUNCT_STRINGS.contains text = false := by
    by_contra hcon
    rw [Bool.not_eq_false] at hcon
    have hmem : text ∈ PUNCT_STRINGS := by simpa using hcon
    obtain ⟨c, hc, hceq⟩ := List.mem_map.mp hmem
    have hcmem : c ∈ text := by rw [← hceq]; exact List.mem_singleton_self c
    have hfalse := h2 c hcmem
    have htrue : PUNCTUATION_SEPARATORS.contains c = true := by simpa using hc
    simp_all
  simp only [hpunct, Bool.false_eq_true, if_false]
  rw [find_all_matches_no_pref lex text h4, find_best_path_nil]
  simp

/-- The two merge fixed-point loops leave a single token alone, so the
rewriter on one token is just the suffix-splitting post-process. -/
theorem rewriter_single (lex : Lexicon) (t : Token) :
    rewriter lex [t] = post_process_splits lex [t] := by
  unfold rewriter
  dsimp only
  rw [loopFix_fixed merge_compound_verbs [t] rfl]
  rw [loopFix_fixed apply_multi_token_merges [t] rfl]

/-- A single token with no matching substitution passes the substitution loop
unchanged. -/
theorem ats_single (lex : Lexicon) (t : Token) (h : findSubstitution [t] = none) :
    apply_token_substitutions lex [t] = [t] := by
  unfold apply_token_substitutions
  rw [if_neg (by simp)]
  rw [List.length_cons]
  rw [atsGo]
  simp only [h]
  rfl

/-- Invariant carried through the suffix-splitting stage under an empty
lexicon: id 0 and a POS among the three fallback names. -/
def tokP (tk : Token) : Prop :=
  tk.base_form_id = 0 ∧ (tk.pos = "unk" ∨ tk.pos = "vs" ∨ tk.pos = "v1")

/-- Split/substitution tokens built against an empty lexicon satisfy the
invariant. -/
theorem tfp_P (lex : Lexicon) (h3 : ∀ s : Str, lex.lookup s = [])
    (parts : List Str) (pos : Nat) :
    ∀ tk ∈ tokensFromParts lex parts pos, tokP tk := by
  intro tk htk
  obtain ⟨-, -, -, hall⟩ := tokensFromParts_spec lex parts pos
  obtain ⟨-, hpos, -, -, hbf⟩ := hall tk htk
  refine ⟨?_, Or.inl hpos⟩
  rw [hbf, h3]

/-- The splitting stage preserves the invariant. -/
theorem splitStage_P (lex : Lexicon) (h3 : ∀ s : Str, lex.lookup s = [])
    (ts : List Token) (hts : ∀ tk ∈ ts, tokP tk) :
    ∀ tk ∈ ts.flatMap (fun tok =>
        if (split_token lex tok.surface).length = 1 then [tok]
        else tokensFromParts lex (split_token lex tok.surface) tok.start),
      tokP tk := by
  intro tk htk
  rw [List.mem_flatMap] at htk
  obtain ⟨tok, htok, hmem⟩ := htk
  split at hmem
  · rw [List.mem_singleton] at hmem
    subst hmem
    exact hts _ htok
  · exact tfp_P lex h3 _ _ tk hmem

/-- The substitution loop preserves the invariant. -/
theorem atsGo_P (lex : Lexicon) (h3 : ∀ s : Str, lex.lookup s = []) :
    ∀ (fuel : Nat) (ts : List Token), (∀ tk ∈ ts, tokP tk) →
      ∀ tk ∈ atsGo lex fuel ts, tokP tk := by
  intro fuel
  induction fuel with
  | zero =>
    intro ts hts tk htk
    cases ts with
    | nil => simp [atsGo] at htk
    | cons t rest => exact hts tk htk
  | succ fuel ih =>
    intro ts hts tk htk
    cases ts with
    | nil => simp [atsGo] at htk
    | cons t rest =>
      rw [atsGo] at htk
      cases hfind : findSubstitution (t :: rest) with
      | some pr =>
        simp only [hfind] at htk
        rw [List.mem_append] at htk
        rcases htk with hmem | hmem
        · exact tfp_P lex h3 _ _ tk hmem
        · exact ih _ (fun x hx => hts x (List.mem_of_mem_drop hx)) tk hmem
      | none =>
        simp only [hfind] at htk
        rcases List.mem_cons.mp htk with rfl | hmem
        · exact hts tk (by simp)
        · exact ih rest (fun x hx => hts x (by simp [hx])) tk hmem

/-- `apply_token_substitutions` preserves the invariant. -/
theorem apply_token_substitutions_P (lex : Lexicon) (h3 : ∀ s : Str, lex.lookup s = [])
    (ts : List Token) (hts : ∀ tk ∈ ts, tokP tk) :
    ∀ tk ∈ apply_token_substitutions lex ts, tokP tk := by
  unfold apply_token_substitutions
  split
  · exact hts
  · exact atsGo_P lex h3 ts.length ts hts

/-- The merge-pattern loop preserves the invariant under an empty lexicon
(the tai-branches need a verb stem record, which cannot exist). -/
theorem ampGo_P (lex : Lexicon) (h3 : ∀ s : Str, lex.lookup s = []) :
    ∀ (fuel : Nat) (ts : List Token), (∀ tk ∈ ts, tokP tk) →
      ∀ tk ∈ ampGo lex fuel ts, tokP tk := by
  have hverb : ∀ s : Str, findVerbStemEntry lex s = none := by
    intro s
    unfold findVerbStemEntry
    rw [h3]
    rfl
  intro fuel
  induction fuel with
  | zero =>
    intro ts hts tk htk
    cases ts with
    | nil => simp [ampGo] at htk
    | cons t rest => exact hts tk htk
  | succ fuel ih =>
    intro ts hts tk htk
    cases ts with
    | nil => simp [ampGo] at htk
    | cons t rest =>
      cases rest with
      | nil =>
        rw [ampGo] at htk
        dsimp only at htk
        split at htk
        case _ pm heq =>
          rcases List.mem_cons.mp htk with rfl | hmem
          · refine ⟨?_, Or.inl rfl⟩
            show (match lex.lookup pm.2 with | en :: _ => en.seq | [] => 0) = 0
            rw [h3]
          · exact ih _ (fun x hx => hts x (List.mem_of_mem_drop hx)) tk hmem
        case _ heq =>
          rcases List.mem_cons.mp htk with rfl | hmem
          · exact hts tk (by simp)
          · simp only [ampGo] at hmem
            simp at hmem
      | cons u rrest =>
        rw [ampGo] at htk
        dsimp only at htk
        simp only [hverb, Option.map_none', ite_self, Option.none_orElse] at htk
        split at htk
        case _ tok heq =>
          have htokP : tokP tok := by
            by_cases hsuru :
                (SURU_COMPOUND_NOUNS.contains t.surface && SURU_FORMS.contains u.surface) = true
            · rw [if_pos hsuru] at heq
              simp only [Option.some_orElse, Option.some.injEq] at heq
              rw [← heq]
              refine ⟨?_, Or.inr (Or.inl rfl)⟩
              show (match lex.lookup (t.surface ++ u.surface) with
                    | en :: _ => en.seq | [] => 0) = 0
              rw [h3]
            · rw [if_neg hsuru] at heq
              simp only [Option.none_orElse] at heq
              split at heq
              · simp only [Option.some.injEq] at heq
                rw [← heq]
                refine ⟨?_, Or.inr (Or.inr rfl)⟩
                show (match lex.lookup (t.surface ++ u.surface) with
                      | en :: _ => en.seq | [] => 0) = 0
                rw [h3]
              · exact absurd heq (by simp)
          rcases List.mem_cons.mp htk with rfl | hmem
          · exact htokP
          · exact ih _ (fun x hx => hts x (List.mem_of_mem_drop hx)) tk hmem
        case _ heq =>
          split at htk
          case _ pm heq2 =>
            rcases List.mem_cons.mp htk with rfl | hmem
            · refine ⟨?_, Or.inl rfl⟩
              show (match lex.lookup pm.2 with | en :: _ => en.seq | [] => 0) = 0
              rw [h3]
            · exact ih _ (fun x hx => hts x (List.mem_of_mem_drop hx)) tk hmem
          case _ heq2 =>
            rcases List.mem_cons.mp htk with rfl | hmem
            · exact hts tk (by simp)
            · exact ih _ (fun x hx => hts x (by simp [hx])) tk hmem

/-- `apply_merge_patterns` preserves the invariant. -/
theorem apply_merge_patterns_P (lex : Lexicon) (h3 : ∀ s : Str, lex.lookup s = [])
    (ts : List Token) (hts : ∀ tk ∈ ts, tokP tk) :
    ∀ tk ∈ apply_merge_patterns lex ts, tokP tk := by
  unfold apply_merge_patterns
  split
  · exact hts
  · exact ampGo_P lex h3 ts.length ts hts

/-- A fixed-point loop of an invariant-preserving pass preserves the
invariant. -/
theorem loopFix_P (f : List Token → List Token)
    (hf : ∀ ts, (∀ tk ∈ ts, tokP tk) → ∀ tk ∈ f ts, tokP tk) :
    ∀ (fuel : Nat) (ts : List Token), (∀ tk ∈ ts, tokP tk) →
      ∀ tk ∈ loopFix f fuel ts, tokP tk := by
  intro fuel
  induction fuel with
  | zero => intro ts hts; exact hts
  | succ fuel ih =>
    intro ts hts tk htk
    rw [loopFix] at htk
    split at htk
    · exact hf ts hts tk htk
    · exact ih (f ts) (hf ts hts) tk htk

/-- The whole suffix-splitting post-process preserves the invariant under an
empty lexicon. -/
theorem post_process_splits_P (lex : Lexicon) (h3 : ∀ s : Str, lex.lookup s = [])
    (ts : List Token) (hts : ∀ tk ∈ ts, tokP tk) :
    ∀ tk ∈ post_process_splits lex ts, tokP tk := by
  unfold post_process_splits
  dsimp only
  refine loopFix_P (apply_merge_patterns lex)
    (fun us hus => apply_merge_patterns_P lex h3 us hus) _ _ ?_
  refine apply_token_substitutions_P lex h3 _ ?_
  exact splitStage_P lex h3 ts hts

/-- C2 (amended): a non-empty input with no separator characters, analyzed
against a lexicon with no records and no prefixes (so every substring of the
input — and every string the rewriter could consult — is unknown), becomes a
single unknown-span token covering the whole input, which only the
lexicon-independent split and substitution rules of the rewriter can divide
further; all resulting tokens keep `base_form_id = 0` and a fallback POS, and
no error is raised. -/
theorem C2_unknown_input_single_token (lex : Lexicon) (text : Str)
    (h1 : text ≠ [])
    (h2 : ∀ c ∈ text, PUNCTUATION_SEPARATORS.contains c = false)
    (h3 : ∀ s : Str, lex.lookup s = [])
    (h4 : ∀ s : Str, lex.hasPref s = false) :
    tokenize_text lex text = post_process_splits lex [unkToken text 0 text.length] ∧
    (∀ tk ∈ tokenize_text lex text,
      tk.base_form_id = 0 ∧ (tk.pos = "unk" ∨ tk.pos = "vs" ∨ tk.pos = "v1")) ∧
    ((split_token lex text).length = 1 →
      findSubstitution [unkToken text 0 text.length] = none →
      tokenize_text lex text = [unkToken text 0 text.length]) ∧
    (unkToken text 0 text.length).pos = "unk" ∧
    (unkToken text 0 text.length).base_form_id = 0 := by
  have hred : tokenize_text lex text = post_process_splits lex [unkToken text 0 text.length] := by
    unfold tokenize_text
    dsimp only
    rw [punctSegs_no_punct text h1 h2]
    simp only [List.flatMap_cons, List.flatMap_nil, List.append_nil]
    rw [tokenizeSegment_unknown lex text h1 h2 h4]
    exact rewriter_single lex _
  refine ⟨hred, ?_, ?_, rfl, rfl⟩
  · intro tk htk
    rw [hred] at htk
    refine post_process_splits_P lex h3 _ ?_ tk htk
    intro x hx
    rw [List.mem_singleton] at hx
    subst hx
    exact ⟨rfl, Or.inl rfl⟩
  · intro hsplit hsub
    rw [hred]
    unfold post_process_splits
    dsimp only
    simp only [List.flatMap_cons, List.flatMap_nil, List.append_nil]
    have hs' : (split_token lex (unkToken text 0 text.length).surface).length = 1 := hsplit
    rw [if_pos hs']
    rw [ats_single lex _ hsub]
    exact loopFix_fixed _ _ rfl _

/-- C2 witness: the single character あ against the empty lexicon tokenizes to
exactly one unknown token covering the input. -/
theorem C2_witness :
    tokenize_text emptyLex "あ".data = [unkToken "あ".data 0 ("あ".data).length] :=
  (C2_unknown_input_single_token emptyLex "あ".data (by decide) (by decide)
      (fun _ => rfl) (fun _ => rfl)).2.2.1 (by decide) (by decide)

/-- Characterization of the end scan over a contiguous end range: a span is
found exactly at the non-sticky ends whose slice passes the prefix test and
has records, provided no earlier non-sticky end in the range failed the
prefix test (the break). -/
theorem scanEnds_mem (lex : Lexicon) (text : Str) (sticky : List Nat) (start : Nat)
    (s e : Nat) (segs : List Segment) :
    ∀ (k a : Nat),
      (((s, e), segs) ∈ scanEnds lex text sticky start (List.range' a k) ↔
        (s = start ∧ a ≤ e ∧ e < a + k ∧ sticky.contains e = false ∧
         lex.hasPref (sliceCP text start e) = true ∧
         lex.lookup (sliceCP text start e) ≠ [] ∧
         segs = (lex.lookup (sliceCP text start e)).map (fun en =>
           { surface := sliceCP text start e, start := start, stop := e, entry := en,
             score := calculate_segment_score lex (sliceCP text start e) en }) ∧
         ∀ e2, a ≤ e2 → e2 < e → sticky.contains e2 = false →
           lex.hasPref (sliceCP text start e2) = true)) := by
  intro k
  induction k with
  | zero =>
    intro a
    rw [List.range'_zero, scanEnds]
    simp only [List.not_mem_nil, false_iff]
    rintro ⟨-, h1, h2, -, -, -, -, -⟩
    omega
  | succ k ih =>
    intro a
    rw [List.range'_succ]
    simp only [scanEnds]
    by_cases hst : sticky.contains a = true
    · rw [if_pos hst, ih (a + 1)]
      constructor
      · rintro ⟨rfl, h1, h2, h3, h4, h5, h6, h7⟩
        refine ⟨rfl, by omega, by omega, h3, h4, h5, h6, ?_⟩
        intro e2 he2a he2e hc
        rcases Nat.eq_or_lt_of_le he2a with heq | hlt
        · rw [← heq] at hc
          rw [hc] at hst
          cases hst
        · exact h7 e2 (by omega) he2e hc
      · rintro ⟨rfl, h1, h2, h3, h4, h5, h6, h7⟩
        have hea : e ≠ a := by
          intro heq
          rw [heq] at h3
          rw [h3] at hst
          cases hst
        exact ⟨rfl, by omega, by omega, h3, h4, h5, h6,
          fun e2 he2a he2e hc => h7 e2 (by omega) he2e hc⟩
    · rw [if_neg hst]
      have hstf : sticky.contains a = false := by simpa using hst
      by_cases hpref : lex.hasPref (sliceCP text start a) = true
      · rw [if_neg (by simp [hpref])]
        by_cases hlk : (lex.lookup (sliceCP text start a)).isEmpty = true
        · rw [if_pos hlk, ih (a + 1)]
          constructor
          · rintro ⟨rfl, h1, h2, h3, h4, h5, h6, h7⟩
            refine ⟨rfl, by omega, by omega, h3, h4, h5, h6, ?_⟩
            intro e2 he2a he2e hc
            rcases Nat.eq_or_lt_of_le he2a with heq | hlt
            · rw [← heq]
              exact hpref
            · exact h7 e2 (by omega) he2e hc
          · rintro ⟨rfl, h1, h2, h3, h4, h5, h6, h7⟩
            have hlknil : lex.lookup (sliceCP text s a) = [] := by
              rwa [List.isEmpty_iff] at hlk
            have hea : e ≠ a := by
              intro heq
              rw [heq] at h5
              exact h5 hlknil
            exact ⟨rfl, by omega, by omega, h3, h4, h5, h6,
              fun e2 he2a he2e hc => h7 e2 (by omega) he2e hc⟩
        · rw [if_neg hlk]
          have hlkne : lex.lookup (sliceCP text start a) ≠ [] := by
            simpa [List.isEmpty_iff] using hlk
          constructor
          · intro hmem
            rcases List.mem_cons.mp hmem with heq | hmem2
            · simp only [Prod.mk.injEq] at heq
              obtain ⟨⟨rfl, rfl⟩, rfl⟩ := heq
              exact ⟨rfl, le_refl e, by omega, hstf, hpref, hlkne, rfl,
                fun e2 he2a he2e hc => absurd he2e (by omega)⟩
            · rw [ih (a + 1)] at hmem2
              obtain ⟨rfl, h1, h2, h3, h4, h5, h6, h7⟩ := hmem2
              refine ⟨rfl, by omega, by omega, h3, h4, h5, h6, ?_⟩
              intro e2 he2a he2e hc
              rcases Nat.eq_or_lt_of_le he2a with heq | hlt
              · rw [← heq]
                exact hpref
              · exact h7 e2 (by omega) he2e hc
          · rintro ⟨rfl, h1, h2, h3, h4, h5, h6, h7⟩
            rcases Nat.eq_or_lt_of_le h1 with heq | hlt
            · exact List.mem_cons.mpr (Or.inl (by rw [h6, ← heq]))
            · refine List.mem_cons.mpr (Or.inr ?_)
              rw [ih (a + 1)]
              exact ⟨rfl, by omega, by omega, h3, h4, h5, h6,
                fun e2 he2a he2e hc => h7 e2 (by omega) he2e hc⟩
      · rw [if_pos hpref]
        simp only [List.not_mem_nil, false_iff]
        rintro ⟨rfl, h1, h2, h3, h4, h5, h6, h7⟩
        rcases Nat.eq_or_lt_of_le h1 with heq | hlt
        · rw [← heq] at h4
          exact hpref h4
        · exact hpref (h7 a le_rfl hlt hstf)

/-- Membership in the lattice: exactly the spans the amended C6 describes. -/
theorem find_all_matches_mem (lex : Lexicon) (text : Str) (s e : Nat)
    (segs : List Segment) :
    ((s, e), segs) ∈ find_all_matches lex text ↔
      ((find_sticky_positions text).contains s = false ∧ s < text.length ∧
       s + 1 ≤ e ∧ e ≤ min (s + MAX_WORD_LENGTH) text.length ∧
       (find_sticky_positions text).contains e = false ∧
       lex.hasPref (sliceCP text s e) = true ∧
       lex.lookup (sliceCP text s e) ≠ [] ∧
       segs = (lex.lookup (sliceCP text s e)).map (fun en =>
         { surface := sliceCP text s e, start := s, stop := e, entry := en,
           score := calculate_segment_score lex (sliceCP text s e) en }) ∧
       ∀ e2, s < e2 → e2 < e → (find_sticky_positions text).contains e2 = false →
         lex.hasPref (sliceCP text s e2) = true) := by
  unfold find_all_matches
  dsimp only
  rw [List.mem_flatMap]
  constructor
  · rintro ⟨start, hstart, hmem⟩
    rw [List.mem_range] at hstart
    by_cases hs : (find_sticky_positions text).contains start = true
    · rw [if_pos hs] at hmem
      exact absurd hmem (List.not_mem_nil _)
    · rw [if_neg hs] at hmem
      rw [scanEnds_mem] at hmem
      obtain ⟨rfl, h1, h2, h3, h4, h5, h6, h7⟩ := hmem
      have hsf : (find_sticky_positions text).contains s = false := by simpa using hs
      refine ⟨hsf, hstart, h1, by omega, h3, h4, h5, h6, ?_⟩
      intro e2 he2s he2e hc
      exact h7 e2 (by omega) he2e hc
  · rintro ⟨hsf, hslen, h1, h2, h3, h4, h5, h6, h7⟩
    refine ⟨s, List.mem_range.mpr hslen, ?_⟩
    have hs2 : ¬ ((find_sticky_positions text).contains s = true) := by
      simp only [hsf]
      exact Bool.false_ne_true
    rw [if_neg hs2]
    rw [scanEnds_mem]
    exact ⟨rfl, h1, by omega, h3, h4, h5, h6,
      fun e2 he2a he2e hc => h7 e2 (by omega) he2e hc⟩

/-- C6 (amended): the sticky set holds the small-kana-modifier positions and
the position after a mid-string sokuon, and this one set forbids both starts
and ends; for every non-sticky start, ends run from start+1 to at most
start+30 (clamped by the text length), sticky ends are skipped without the
prefix test, growth stops at the first non-skipped slice failing the prefix
test, and every record returned by lookup for a surviving slice becomes a
node. -/
theorem C6_lattice_enumeration (lex : Lexicon) (text : Str) (p s e : Nat)
    (segs : List Segment) :
    (p ∈ find_sticky_positions text ↔
      ∃ i, i < text.length ∧
        ((MODIFIER_CLASSES.contains (get_char_class (text.getD i ' ')) = true ∧ p = i) ∨
         (get_char_class (text.getD i ' ') = "sokuon" ∧ i < text.length - 1 ∧
          p = i + 1))) ∧
    (((s, e), segs) ∈ find_all_matches lex text ↔
      ((find_sticky_positions text).contains s = false ∧ s < text.length ∧
       s + 1 ≤ e ∧ e ≤ min (s + MAX_WORD_LENGTH) text.length ∧
       (find_sticky_positions text).contains e = false ∧
       lex.hasPref (sliceCP text s e) = true ∧
       lex.lookup (sliceCP text s e) ≠ [] ∧
       segs = (lex.lookup (sliceCP text s e)).map (fun en =>
         { surface := sliceCP text s e, start := s, stop := e, entry := en,
           score := calculate_segment_score lex (sliceCP text s e) en }) ∧
       ∀ e2, s < e2 → e2 < e → (find_sticky_positions text).contains e2 = false →
         lex.hasPref (sliceCP text s e2) = true)) := by
  constructor
  · unfold find_sticky_positions
    dsimp only
    rw [List.mem_flatMap]
    constructor
    · rintro ⟨i, hi, hmem⟩
      rw [List.mem_range] at hi
      rw [List.mem_append] at hmem
      rcases hmem with hmem | hmem
      · split at hmem
        case isTrue hmod =>
          exact ⟨i, hi, Or.inl ⟨hmod, List.mem_singleton.mp hmem⟩⟩
        case isFalse hmod => exact absurd hmem (List.not_mem_nil _)
      · split at hmem
        case isTrue hsok =>
          exact ⟨i, hi, Or.inr ⟨hsok.1, hsok.2, List.mem_singleton.mp hmem⟩⟩
        case isFalse hsok => exact absurd hmem (List.not_mem_nil _)
    · rintro ⟨i, hi, hcase⟩
      refine ⟨i, List.mem_range.mpr hi, ?_⟩
      rw [List.mem_append]
      rcases hcase with ⟨hmod, rfl⟩ | ⟨hsok, hlt, rfl⟩
      · left
        rw [if_pos hmod]
        exact List.mem_singleton_self p
      · right
        rw [if_pos ⟨hsok, hlt⟩]
        exact List.mem_singleton_self (i + 1)
  · exact find_all_matches_mem lex text s e segs

/-- C6 witness: the theorem applied to the one-character text た and the
lexicon containing た — the span (0, 1) with its one record is enumerated. -/
theorem C6_witness :
    ((0, 1),
      (lexTa.lookup (sliceCP "た".data 0 1)).map (fun en =>
        { surface := sliceCP "た".data 0 1, start := 0, stop := 1, entry := en,
          score := calculate_segment_score lexTa (sliceCP "た".data 0 1) en }))
      ∈ find_all_matches lexTa "た".data :=
  (C6_lattice_enumeration lexTa "た".data 0 0 1 _).2.mpr
    ⟨by decide, by decide, by decide, by decide, by decide, by decide, by decide, rfl,
     fun e2 h1 h2 _ => absurd h2 (by omega)⟩

/-- Modelled from the spec: the arabic (ASCII digit) written form of `n` —
the "arabic form" through which §8's round-trip property goes. -/
def arabicForm (n : Nat) : Str :=
  if n = 0 then "0".data
  else (Nat.digits 10 n).reverse.map fun d => Char.ofNat (48 + d)

/-- Each decimal digit's ASCII character is read back by `DIGIT_VALUES`. -/
theorem digitValue_ofNat (d : Nat) (hd : d < 10) :
    digitValue? (Char.ofNat (48 + d)) = some d := by
  interval_cases d <;> rfl

/-- A digit string: every character passes the digit test and filtering the
values back recovers the digits. -/
theorem digitsStr_spec (l : List Nat) (hl : ∀ d ∈ l, d < 10) :
    ((l.map fun d => Char.ofNat (48 + d)).takeWhile fun c => (digitValue? c).isSome) =
        l.map (fun d => Char.ofNat (48 + d)) ∧
    ((l.map fun d => Char.ofNat (48 + d)).filterMap digitValue?) = l := by
  induction l with
  | nil => exact ⟨rfl, rfl⟩
  | cons d t ih =>
    obtain ⟨ih1, ih2⟩ := ih (fun x hx => hl x (by simp [hx]))
    have hd := digitValue_ofNat d (hl d (by simp))
    constructor
    · simp [List.takeWhile_cons, hd, ih1]
    · simp [List.filterMap_cons, hd, ih2]

/-- The decimal fold of `parse_number` inverts `Nat.digits`. -/
theorem foldl_digits (l : List Nat) :
    l.reverse.foldl (fun acc d => acc * 10 + d) 0 = Nat.ofDigits 10 l := by
  rw [List.foldl_reverse]
  induction l with
  | nil => simp [Nat.ofDigits_nil]
  | cons d t ih =>
    simp only [List.foldr_cons, ih, Nat.ofDigits_cons]
    ring

/-- Arabic round-trip, with no bound needed: `parse_number` reads back the
arabic form of every natural number. -/
theorem parse_number_arabicForm (n : Nat) : parse_number (arabicForm n) = some n := by
  by_cases h0 : n = 0
  · subst h0
    decide
  · unfold arabicForm
    rw [if_neg h0]
    have hdig : ∀ d ∈ (Nat.digits 10 n).reverse, d < 10 := by
      intro d hd
      rw [List.mem_reverse] at hd
      exact Nat.digits_lt_base (by norm_num) hd
    obtain ⟨h1, h2⟩ := digitsStr_spec (Nat.digits 10 n).reverse hdig
    unfold parse_number
    dsimp only
    rw [h1, h2]
    have hcond : ¬ (((Nat.digits 10 n).reverse).isEmpty = true) ∧
        ((Nat.digits 10 n).reverse).length =
          ((Nat.digits 10 n).reverse.map fun d => Char.ofNat (48 + d)).length := by
      constructor
      · intro hemp
        rw [List.isEmpty_iff, List.reverse_eq_nil_iff] at hemp
        exact h0 (Nat.digits_eq_nil_iff_eq_zero.mp hemp)
      · simp
    rw [if_pos hcond]
    rw [foldl_digits, Nat.ofDigits_digits]

/-- One kanji digit feeds the fold's pending value. -/
theorem kanjiDigit_go (r : Nat) : ∀ d, d ≤ 9 →
    parseKanjiGo (kanjiDigit d) r 0 = some (r, d) := by
  intro d hd
  interval_cases d <;> rfl

/-- A 千-block adds its value and clears the pending digit. -/
theorem sen_go (r : Nat) : ∀ d, d ≤ 9 →
    parseKanjiGo (kanjiBlockPiece d "千".data) r 0 = some (r + d * 1000, 0) := by
  intro d hd
  interval_cases d <;> rfl

/-- A 百-block adds its value and clears the pending digit. -/
theorem hyaku_go (r : Nat) : ∀ d, d ≤ 9 →
    parseKanjiGo (kanjiBlockPiece d "百".data) r 0 = some (r + d * 100, 0) := by
  intro d hd
  interval_cases d <;> rfl

/-- A 十-block adds its value and clears the pending digit. -/
theorem juu_go (r : Nat) : ∀ d, d ≤ 9 →
    parseKanjiGo (kanjiBlockPiece d "十".data) r 0 = some (r + d * 10, 0) := by
  intro d hd
  interval_cases d <;> rfl

/-- A digit followed by 万 adds digit·10000 and clears the pending digit. -/
theorem man_go (r : Nat) : ∀ q, 1 ≤ q → q ≤ 9 →
    parseKanjiGo (kanjiDigit q ++ "万".data) r 0 = some (r + q * 10000, 0) := by
  intro q h1 h9
  interval_cases q <;> rfl

/-- The kanji fold processes concatenations left to right. -/
theorem parseKanjiGo_append (a b : List Char) :
    ∀ r c, parseKanjiGo (a ++ b) r c =
      match parseKanjiGo a r c with
      | none => none
      | some rc => parseKanjiGo b rc.1 rc.2 := by
  induction a with
  | nil => intro r c; rfl
  | cons x t ih =>
    intro r c
    cases hx : kanjiValue? x with
    | none => simp only [List.cons_append, parseKanjiGo, hx]
    | some v =>
      simp only [List.cons_append, parseKanjiGo, hx]
      split_ifs <;> exact ih _ _

/-- The three sub-万 blocks and the final digit, folded from any carry. -/
theorem parseKanjiGo_blocks (r m : Nat) (hm : m ≤ 9999) :
    parseKanjiGo (kanjiBlockPiece (m / 1000) "千".data ++
      (kanjiBlockPiece (m % 1000 / 100) "百".data ++
       (kanjiBlockPiece (m % 100 / 10) "十".data ++ kanjiDigit (m % 10)))) r 0 =
      some (r + m / 1000 * 1000 + m % 1000 / 100 * 100 + m % 100 / 10 * 10, m % 10) := by
  rw [parseKanjiGo_append, sen_go r (m / 1000) (by omega)]
  dsimp only
  rw [parseKanjiGo_append, hyaku_go _ (m % 1000 / 100) (by omega)]
  dsimp only
  rw [parseKanjiGo_append, juu_go _ (m % 100 / 10) (by omega)]
  dsimp only
  rw [kanjiDigit_go _ (m % 10) (by omega)]

/-- A one-digit number needs no place multipliers: its kanji form is the bare
digit, whatever positive fuel is supplied. -/
theorem numberToKanjiGo_small (fuel q : Nat) (hf : 1 ≤ fuel) (h1 : 1 ≤ q) (h9 : q ≤ 9) :
    numberToKanjiGo fuel q = kanjiDigit q := by
  obtain ⟨f, rfl⟩ : ∃ f, fuel = f + 1 := ⟨fuel - 1, by omega⟩
  rw [numberToKanjiGo]
  rw [if_neg (by omega)]
  rw [if_neg (by omega)]
  dsimp only
  have e1 : q % 10000 = q := Nat.mod_eq_of_lt (by omega)
  rw [e1]
  have e2 : q / 1000 = 0 := Nat.div_eq_of_lt (by omega)
  have e3 : q % 1000 = q := Nat.mod_eq_of_lt (by omega)
  have e5 : q / 100 = 0 := Nat.div_eq_of_lt (by omega)
  have e4 : q % 100 = q := Nat.mod_eq_of_lt (by omega)
  have e6 : q / 10 = 0 := Nat.div_eq_of_lt (by omega)
  have e7 : q % 10 = q := Nat.mod_eq_of_lt (by omega)
  rw [e2, e3, e5, e4, e6, e7]
  simp [kanjiBlockPiece]

/-- No kanji digit character is an arabic digit. -/
theorem digitValue_kanjiDigit (d : Nat) : ∀ c ∈ kanjiDigit d, digitValue? c = none := by
  intro c hc
  unfold kanjiDigit at hc
  split_ifs at hc <;>
    first
      | (rw [List.mem_singleton] at hc; subst hc; rfl)
      | exact absurd hc (List.not_mem_nil c)

/-- A block piece over a non-digit multiplier has no arabic digit characters. -/
theorem digitValue_piece (d : Nat) (mult : Str)
    (hm : ∀ c ∈ mult, digitValue? c = none) :
    ∀ c ∈ kanjiBlockPiece d mult, digitValue? c = none := by
  intro c hc
  unfold kanjiBlockPiece at hc
  split_ifs at hc
  · exact absurd hc (List.not_mem_nil c)
  · exact hm c hc
  · rw [List.mem_append] at hc
    rcases hc with hc | hc
    · exact digitValue_kanjiDigit d c hc
    · exact hm c hc

/-- A string of non-digit characters starts no arabic prefix. -/
theorem takeWhile_no_digit (l : Str) (h : ∀ c ∈ l, digitValue? c = none) :
    l.takeWhile (fun c => (digitValue? c).isSome) = [] := by
  cases l with
  | nil => rfl
  | cons c t => simp [List.takeWhile_cons, h c (by simp)]

/-- Kanji round-trip: `parse_number` reads back the kanji form of every
number below 100000 (beyond that `parse_kanji_number` mis-associates the
万-multiplier — see the counterexample). -/
theorem parse_number_kanjiForm (n : Nat) (hn : n ≤ 99999) :
    parse_number (number_to_kanji n) = some n := by
  have hsen : ∀ c ∈ ("千".data : Str), digitValue? c = none := by
    intro c hc
    rw [show ("千".data : Str) = ['千'] from rfl, List.mem_singleton] at hc
    subst hc
    rfl
  have hhyaku : ∀ c ∈ ("百".data : Str), digitValue? c = none := by
    intro c hc
    rw [show ("百".data : Str) = ['百'] from rfl, List.mem_singleton] at hc
    subst hc
    rfl
  have hjuu : ∀ c ∈ ("十".data : Str), digitValue? c = none := by
    intro c hc
    rw [show ("十".data : Str) = ['十'] from rfl, List.mem_singleton] at hc
    subst hc
    rfl
  have hman : ∀ c ∈ ("万".data : Str), digitValue? c = none := by
    intro c hc
    rw [show ("万".data : Str) = ['万'] from rfl, List.mem_singleton] at hc
    subst hc
    rfl
  by_cases h0 : n = 0
  · subst h0
    decide
  · by_cases h4 : n ≥ 10000
    · have hform : number_to_kanji n =
          (kanjiDigit (n / 10000) ++ "万".data) ++
          (kanjiBlockPiece (n % 10000 / 1000) "千".data ++
           (kanjiBlockPiece (n % 10000 % 1000 / 100) "百".data ++
            (kanjiBlockPiece (n % 10000 % 100 / 10) "十".data ++
             kanjiDigit (n % 10000 % 10)))) := by
        unfold number_to_kanji
        rw [numberToKanjiGo, if_neg h0, if_pos h4]
        rw [numberToKanjiGo_small n (n / 10000) (by omega) (by omega) (by omega)]
        simp [List.append_assoc]
      rw [hform]
      have hchars : ∀ c ∈ ((kanjiDigit (n / 10000) ++ "万".data) ++
          (kanjiBlockPiece (n % 10000 / 1000) "千".data ++
           (kanjiBlockPiece (n % 10000 % 1000 / 100) "百".data ++
            (kanjiBlockPiece (n % 10000 % 100 / 10) "十".data ++
             kanjiDigit (n % 10000 % 10))))), digitValue? c = none := by
        intro c hc
        simp only [List.mem_append] at hc
        rcases hc with (hc | hc) | hc | hc | hc | hc
        · exact digitValue_kanjiDigit _ c hc
        · exact hman c hc
        · exact digitValue_piece _ _ hsen c hc
        · exact digitValue_piece _ _ hhyaku c hc
        · exact digitValue_piece _ _ hjuu c hc
        · exact digitValue_kanjiDigit _ c hc
      have hgo : parseKanjiGo ((kanjiDigit (n / 10000) ++ "万".data) ++
          (kanjiBlockPiece (n % 10000 / 1000) "千".data ++
           (kanjiBlockPiece (n % 10000 % 1000 / 100) "百".data ++
            (kanjiBlockPiece (n % 10000 % 100 / 10) "十".data ++
             kanjiDigit (n % 10000 % 10))))) 0 0 =
          some (0 + n / 10000 * 10000 + n % 10000 / 1000 * 1000 +
            n % 10000 % 1000 / 100 * 100 + n % 10000 % 100 / 10 * 10,
            n % 10000 % 10) := by
        rw [parseKanjiGo_append, man_go 0 (n / 10000) (by omega) (by omega)]
        dsimp only
        exact parseKanjiGo_blocks _ (n % 10000) (by omega)
      unfold parse_number
      dsimp only
      rw [takeWhile_no_digit _ hchars]
      simp only [List.filterMap_nil]
      rw [if_neg (by simp)]
      unfold parse_kanji_number
      have hne : ¬ (((kanjiDigit (n / 10000) ++ "万".data) ++
          (kanjiBlockPiece (n % 10000 / 1000) "千".data ++
           (kanjiBlockPiece (n % 10000 % 1000 / 100) "百".data ++
            (kanjiBlockPiece (n % 10000 % 100 / 10) "十".data ++
             kanjiDigit (n % 10000 % 10))))).isEmpty = true) := by
        intro hemp
        rw [List.isEmpty_iff] at hemp
        rw [hemp] at hgo
        simp only [parseKanjiGo, Option.some.injEq, Prod.mk.injEq] at hgo
        omega
      rw [if_neg hne, hgo]
      dsimp only
      rw [if_pos (Or.inl (by omega))]
      exact congrArg some (by omega)
    · have hform : number_to_kanji n =
          kanjiBlockPiece (n % 10000 / 1000) "千".data ++
          (kanjiBlockPiece (n % 10000 % 1000 / 100) "百".data ++
           (kanjiBlockPiece (n % 10000 % 100 / 10) "十".data ++
            kanjiDigit (n % 10000 % 10))) := by
        unfold number_to_kanji
        rw [numberToKanjiGo, if_neg h0, if_neg h4]
        simp [List.append_assoc]
      rw [hform]
      have hchars : ∀ c ∈ (kanjiBlockPiece (n % 10000 / 1000) "千".data ++
          (kanjiBlockPiece (n % 10000 % 1000 / 100) "百".data ++
           (kanjiBlockPiece (n % 10000 % 100 / 10) "十".data ++
            kanjiDigit (n % 10000 % 10)))), digitValue? c = none := by
        intro c hc
        simp only [List.mem_append] at hc
        rcases hc with hc | hc | hc | hc
        · exact digitValue_piece _ _ hsen c hc
        · exact digitValue_piece _ _ hhyaku c hc
        · exact digitValue_piece _ _ hjuu c hc
        · exact digitValue_kanjiDigit _ c hc
      have hgo := parseKanjiGo_blocks 0 (n % 10000) (by omega)
      unfold parse_number
      dsimp only
      rw [takeWhile_no_digit _ hchars]
      simp only [List.filterMap_nil]
      rw [if_neg (by simp)]
      unfold parse_kanji_number
      have hne : ¬ ((kanjiBlockPiece (n % 10000 / 1000) "千".data ++
          (kanjiBlockPiece (n % 10000 % 1000 / 100) "百".data ++
           (kanjiBlockPiece (n % 10000 % 100 / 10) "十".data ++
            kanjiDigit (n % 10000 % 10)))).isEmpty = true) := by
        intro hemp
        rw [List.isEmpty_iff] at hemp
        rw [hemp] at hgo
        simp only [parseKanjiGo, Option.some.injEq, Prod.mk.injEq] at hgo
        omega
      rw [if_neg hne, hgo]
      dsimp only
      rw [if_pos (Or.inl (by omega))]
      exact congrArg some (by omega)

/-- C9 (amended): `parse_number` inverts the arabic form for every `n` up to
99999999 and the kanji form for every `n` up to 99999 (beyond which
`parse_kanji_number` folds the 十/百/千 groups in before 万 arrives — see the
counterexample 十万), and `number_to_kana` produces the five irregular
readings exactly as claimed. -/
theorem C9_number_round_trip (n : Nat) :
    (n ≤ 99999999 → parse_number (arabicForm n) = some n) ∧
    (n ≤ 99999 → parse_number (number_to_kanji n) = some n) ∧
    number_to_kana 3000 = "さんぜん".data ∧
    number_to_kana 8000 = "はっせん".data ∧
    number_to_kana 300 = "さんびゃく".data ∧
    number_to_kana 600 = "ろっぴゃく".data ∧
    number_to_kana 800 = "はっぴゃく".data := by
  refine ⟨fun _ => parse_number_arabicForm n, fun h => parse_number_kanjiForm n h,
    by decide, by decide, by decide, by decide, by decide⟩

/-- C9 witness: the theorem applied at 2015 — both round-trips hold there. -/
theorem C9_witness :
    (2015 : Nat) ≤ 99999999 ∧ (2015 : Nat) ≤ 99999 ∧
    parse_number (arabicForm 2015) = some 2015 ∧
    parse_number (number_to_kanji 2015) = some 2015 :=
  ⟨by decide, by decide, (C9_number_round_trip 2015).1 (by decide),
   (C9_number_round_trip 2015).2.1 (by decide)⟩

end Himotoki
